import Mathlib

/-!
Shallow embedding of the PoC-EasyHoliday itinerary-to-booking core
(`src/booker_agent.py`, `src/tools/inventory_tools.py`,
`src/tools/booking_tools.py`) and proofs about its specification claims.

Modelling conventions, fixed once for the whole file:

* Calendar dates are modelled as integers (a day number).  Python `date`
  objects within the supported range are in order-preserving bijection with
  day numbers; `date + timedelta(days = k)` is `d + k` and `(d1 - d2).days`
  is `d1 - d2`.  A raw field that may fail `date.fromisoformat` is modelled
  as `Option Int` (`none` = missing or unparsable).
* Python dict records become structures.  A field that the source reads with
  `d.get(key, default)` and that a claim exercises in its missing state is
  an `Option`; other fields are stored at the type produced by the source's
  coercion (`int(...)`, `str(...)`).
* Python `x // y` and `x % y` on ints are floor division / modulus; for the
  positive divisors used by the source these coincide with `Int.ediv` /
  `Int.emod`, which in this Lean version are `/` and `%` on `Int`.
  Python `int(f)` on a float truncates toward zero, so `int(x * 0.2)` and
  `int(x * 1.2)` are `Int.tdiv (x) 5` and `Int.tdiv (6 * x) 5`: for integer
  `x` of the catalog's magnitude (well below 2^52) the IEEE-double products
  `x * 0.2` and `x * 1.2` round to a value whose truncation equals the exact
  rational's truncation.
* The JSON files behind `inventory_tools` / `booking_tools` are modelled as
  an explicit `Store` value threaded through the functions (the spec's own
  recommendation, §9); a successful `_write_json` is a functional update.
* `datetime.utcnow()` and `uuid.uuid4()` are nondeterministic inputs; they
  are passed in as the parameters `createdAt` / `txid`.
* Python's builtin `min(xs, key=k)` returns the first element attaining the
  minimal key; it is modelled by `minByKey` below.
* Python's `list.sort(key=k)` is a stable sort; a stable sort by key `k`
  produces exactly the unique ordering of the (position, element) pairs that
  is sorted by the lexicographic order "smaller key, or equal key and
  smaller original position".  It is modelled by sorting the `enum`erated
  list with `List.insertionSort` under that total antisymmetric order.
-/

/-- Lowercase a string, modelling Python `str.lower()` for the ASCII data
used by the catalogs (written over the character list so that it reduces
inside the kernel). -/
def lowerStr (s : String) : String := String.mk (s.data.map Char.toLower)

/-- Python `str.strip()`: drop leading and trailing whitespace. -/
def stripStr (s : String) : String :=
  String.mk (((s.data.dropWhile Char.isWhitespace).reverse.dropWhile
    Char.isWhitespace).reverse)

/-- Normalisation applied by the query side of the catalog filters:
`x.strip().lower()`. -/
def normQuery (s : String) : String := lowerStr (stripStr s)

/-- Python `min(x :: xs, key=key)`: the first element attaining the minimal
key, via the same left fold Python performs. -/
def minByKey {α : Type} (key : α → Int) (x : α) (xs : List α) : α :=
  xs.foldl (fun b a => if key a < key b then a else b) x

/-- `min(l, key=key)` guarded by emptiness: `none` exactly on `[]`. -/
def minByKey? {α : Type} (key : α → Int) : List α → Option α
  | [] => none
  | x :: xs => some (minByKey key x xs)

/-- `r` is the element of `l` that Python `min(l, key=key)` must return:
it occurs in `l`, every element strictly before it has a strictly larger
key, and every element after it has a key at least as large. -/
def IsFirstMin {α : Type} (key : α → Int) (l : List α) (r : α) : Prop :=
  ∃ l1 l2, l = l1 ++ r :: l2 ∧ (∀ y ∈ l1, key r < key y) ∧ (∀ y ∈ l2, key r ≤ key y)

/-- Python dict assignment `d[k] = v`: replaces the value in place if the
key is present (keeping its position), otherwise appends the binding. -/
def dictInsert (k : String) (v : Int) : List (String × Int) → List (String × Int)
  | [] => [(k, v)]
  | p :: rest => if p.1 = k then (k, v) :: rest else p :: dictInsert k v rest

/-- The night count `_split_nights_across_cities` computes for index `i`:
`base + (1 if idx < remainder else 0)`. -/
def nightAlloc (base r : Int) (i : Nat) : Int :=
  base + if (i : Int) < r then 1 else 0

/-- `_split_nights_across_cities` from `src/booker_agent.py`: evenly assign
nights to each city, distributing the remainder to earlier cities.  The
Python dict is modelled as an insertion-ordered association list. -/
def splitNightsAcrossCities (cities : List String) (totalDays : Int) :
    List (String × Int) :=
  if cities.isEmpty then []
  else
    let base := totalDays / (cities.length : Int)
    let r := totalDays % (cities.length : Int)
    cities.enum.foldl (fun acc p => dictInsert p.2 (nightAlloc base r p.1) acc) []

/-- A flight inventory record (`flights.json`).  `base_price_idr` is kept
optional because the source reads it with `f.get("base_price_idr", 0)` and
claim C10 exercises the missing case; `fromCity`/`toCity` render the JSON
keys `from`/`to` (`from` is reserved in Lean). -/
structure FlightRec where
  id : Option String
  fromCity : String
  toCity : String
  date : Option Int
  seats_left : Int
  base_price_idr : Option Int
  deriving Repr, DecidableEq

/-- `int(f.get("base_price_idr", 0))`. -/
def flightPrice (f : FlightRec) : Int := f.base_price_idr.getD 0

/-- A hotel inventory record (`hotels.json`).  `price_per_night_idr` is
optional for the same reason as the flight price. -/
structure HotelRec where
  id : Option String
  name : Option String
  city : String
  country : String
  category : String
  price_per_night_idr : Option Int
  rooms_left : Int
  available_from : Option Int
  available_to : Option Int
  deriving Repr, DecidableEq

/-- `int(h.get("price_per_night_idr", 0))`. -/
def hotelPrice (h : HotelRec) : Int := h.price_per_night_idr.getD 0

/-- Result record of `find_flights_for_trip`. -/
structure FlightsResult where
  outbound_options : List FlightRec
  return_options : List FlightRec
  deriving Repr, DecidableEq

/-- The exact-date filter of `find_flights_for_trip`: matching route
(case-insensitively, query side stripped), seats remaining, and parsed
date equal to the target date. -/
def exactOptions (flights : List FlightRec) (src dst : String) (target : Int) :
    List FlightRec :=
  flights.filter fun f =>
    lowerStr f.fromCity == normQuery src &&
    lowerStr f.toCity == normQuery dst &&
    decide (0 < f.seats_left) &&
    f.date == some target

/-- The fallback candidate filter of `find_flights_for_trip`: matching
route, seats remaining, and a parseable date. -/
def dateableCandidates (flights : List FlightRec) (src dst : String) :
    List FlightRec :=
  flights.filter fun f =>
    lowerStr f.fromCity == normQuery src &&
    lowerStr f.toCity == normQuery dst &&
    decide (0 < f.seats_left) &&
    f.date.isSome

/-- Sort key of the fallback: `abs((_parse_date(f["date"]) - target).days)`.
The filter guarantees the date is present, so the `getD` default is never
reached on the lists this is applied to. -/
def flightDateDist (target : Int) (f : FlightRec) : Nat :=
  (f.date.getD 0 - target).natAbs

/-- The order realised by Python's stable `sort(key=distance)` on the
enumerated candidate list: strictly smaller distance, or equal distance and
original position not larger. -/
def nearerLe (target : Int) (p q : Nat × FlightRec) : Prop :=
  flightDateDist target p.2 < flightDateDist target q.2 ∨
    (flightDateDist target p.2 = flightDateDist target q.2 ∧ p.1 ≤ q.1)

instance (target : Int) : DecidableRel (nearerLe target) := fun p q => by
  unfold nearerLe; exact inferInstance

instance (target : Int) : IsTotal (Nat × FlightRec) (nearerLe target) where
  total p q := by
    unfold nearerLe
    rcases Nat.lt_trichotomy (flightDateDist target p.2) (flightDateDist target q.2) with h | h | h
    · exact Or.inl (Or.inl h)
    · rcases Nat.le_total p.1 q.1 with h' | h'
      · exact Or.inl (Or.inr ⟨h, h'⟩)
      · exact Or.inr (Or.inr ⟨h.symm, h'⟩)
    · exact Or.inr (Or.inl h)

instance (target : Int) : IsTrans (Nat × FlightRec) (nearerLe target) where
  trans p q s hpq hqs := by
    unfold nearerLe at *
    rcases hpq with h1 | ⟨h1, h1'⟩ <;> rcases hqs with h2 | ⟨h2, h2'⟩
    · exact Or.inl (h1.trans h2)
    · exact Or.inl (h2 ▸ h1)
    · exact Or.inl (h1 ▸ h2)
    · exact Or.inr ⟨h1.trans h2, h1'.trans h2'⟩

/-- `candidates.sort(key=distance); candidates[:5]`: the nearest-date
fallback of `find_flights_for_trip`.  Python's stable sort is realised as
the (unique) `insertionSort` of the enumerated list under `nearerLe`. -/
def nearestOptions (flights : List FlightRec) (src dst : String) (target : Int) :
    List FlightRec :=
  ((((dateableCandidates flights src dst).enum).insertionSort
      (nearerLe target)).map Prod.snd).take 5

/-- `find_flights_for_trip` from `src/tools/inventory_tools.py`:
outbound `origin → firstCity` on `startDate`, return `lastCity → origin`
on `returnDate`, each falling back to the five nearest-date seat-available
candidates when no exact-date match exists. -/
def findFlightsForTrip (flights : List FlightRec)
    (origin firstCity lastCity : String) (startDate returnDate : Int) :
    FlightsResult :=
  let ob := exactOptions flights origin firstCity startDate
  let rt := exactOptions flights lastCity origin returnDate
  let ob := if ob.isEmpty then nearestOptions flights origin firstCity startDate else ob
  let rt := if rt.isEmpty then nearestOptions flights lastCity origin returnDate else rt
  { outbound_options := ob, return_options := rt }

/-- `find_hotels_for_city` from `src/tools/inventory_tools.py`: hotels in
the city/country matching the style, with rooms remaining, whose
availability window contains both ends of the stay window. -/
def findHotelsForCity (hotels : List HotelRec) (city country style : String)
    (stayStart stayEnd : Int) : List HotelRec :=
  hotels.filter fun h =>
    lowerStr h.city == normQuery city &&
    lowerStr h.country == normQuery country &&
    lowerStr h.category == normQuery style &&
    decide (0 < h.rooms_left) &&
    match h.available_from, h.available_to with
    | some af, some at2 =>
        decide (af ≤ stayStart) && decide (stayStart ≤ at2) &&
        decide (af ≤ stayEnd) && decide (stayEnd ≤ at2)
    | _, _ => false

/-- The typed failures of `book_itinerary`.  The source raises a single
`BookerError` class; the four constructors correspond one-to-one to its
four raise sites (`Invalid user preferences: …`, `Chosen itinerary has no
cities to visit.`, `No available outbound or return flights for the
selected trip.`, `No hotels available in {city} for style {style}.`). -/
inductive BookerError where
  | invalidPreferences
  | emptyItinerary
  | noFlightsAvailable
  | noHotelsAvailable (city style : String)
  deriving Repr, DecidableEq

/-- The fields `book_itinerary` extracts from `user_prefs` before use.
Each is `Option`al: `none` models a missing key (or, for the date, a
string `date.fromisoformat` rejects) — exactly the cases the `try` block
converts into `BookerError`. -/
structure UserPrefs where
  origin_city : Option String
  travel_style : Option String
  budget_idr : Option Int
  trip_length_days : Option Int
  start_date : Option Int
  deriving Repr, DecidableEq

/-- The validated preference values after the `try` block succeeds. -/
structure PrefVals where
  origin_city : String
  travel_style : String
  budget_idr : Int
  trip_length_days : Int
  start_date : Int
  deriving Repr, DecidableEq

/-- The `try` block of `book_itinerary`: all five fields must be present
(and the start date parseable), otherwise the caller raises
`invalidPreferences`. -/
def validatePrefs (p : UserPrefs) : Option PrefVals := do
  let o ← p.origin_city
  let ts ← p.travel_style
  let b ← p.budget_idr
  let t ← p.trip_length_days
  let s ← p.start_date
  pure ⟨o, ts, b, t, s⟩

/-- The chosen itinerary as consumed by `book_itinerary`
(`chosen_itinerary.get("cities") or []`, `.get("destination_country")`;
claims exercise only itineraries carrying a country string). -/
structure Itinerary where
  destination_country : String
  cities : List String
  deriving Repr, DecidableEq

/-- A `hotel_copy` dict: the selected hotel enriched with its night count
and stay window. -/
structure ChosenHotel where
  hotel : HotelRec
  nights : Int
  stay_start : Int
  stay_end : Int
  deriving Repr, DecidableEq

/-- `luxury → mid-range → backpacker` downgrade chain of the hotel loop. -/
def fallbackStyle (style : String) : Option String :=
  if style = "luxury" then some "mid-range"
  else if style = "mid-range" then some "backpacker"
  else none

/-- The candidate list the hotel loop of `book_itinerary` selects from:
the requested style's matches, or on an empty result one retry with the
downgraded style (no retry for `backpacker` or unknown styles). -/
def hotelCandidates (hotels : List HotelRec) (city country style : String)
    (stayStart stayEnd : Int) : List HotelRec :=
  if (findHotelsForCity hotels city country style stayStart stayEnd).isEmpty then
    match fallbackStyle style with
    | some fs => findHotelsForCity hotels city country fs stayStart stayEnd
    | none => []
  else findHotelsForCity hotels city country style stayStart stayEnd

/-- One iteration of the hotel loop body of `book_itinerary` for a city
with a positive night count: fail naming the city and the requested style
when no candidate remains, else pick the cheapest candidate. -/
def selectHotelForCity (hotels : List HotelRec) (city country style : String)
    (stayStart stayEnd : Int) : Except BookerError HotelRec :=
  match minByKey? hotelPrice
      (hotelCandidates hotels city country style stayStart stayEnd) with
  | none => .error (.noHotelsAvailable city style)
  | some h => .ok h

/-- The per-city loop of `book_itinerary`: walk the cities in visiting
order carrying `day_offset`, skip cities with no nights, and build the
`chosen_hotels` list (or fail on the first city with no hotel match). -/
def resolveStays (hotels : List HotelRec) (country style : String)
    (nightsMap : List (String × Int)) (startDate : Int) :
    List String → Int → Except BookerError (List ChosenHotel)
  | [], _ => .ok []
  | city :: rest, dayOffset =>
    let nights := (nightsMap.lookup city).getD 0
    if nights ≤ 0 then resolveStays hotels country style nightsMap startDate rest dayOffset
    else
      let stayStart := startDate + dayOffset
      let stayEnd := stayStart + nights - 1
      match selectHotelForCity hotels city country style stayStart stayEnd with
      | .error e => .error e
      | .ok h =>
        match resolveStays hotels country style nightsMap startDate rest (dayOffset + nights) with
        | .error e => .error e
        | .ok tail =>
          .ok ({ hotel := h, nights := nights, stay_start := stayStart,
                 stay_end := stayEnd } :: tail)

/-- One `stay_plan` entry of the result dict. -/
structure StayPlanEntry where
  city : String
  country : String
  hotel_id : Option String
  hotel_name : Option String
  nights : Int
  stay_start : Int
  stay_end : Int
  category : String
  deriving Repr, DecidableEq

/-- Build the `stay_plan` entry of a chosen hotel. -/
def mkStayEntry (c : ChosenHotel) : StayPlanEntry :=
  { city := c.hotel.city, country := c.hotel.country, hotel_id := c.hotel.id,
    hotel_name := c.hotel.name, nights := c.nights, stay_start := c.stay_start,
    stay_end := c.stay_end, category := c.hotel.category }

/-- The `cost_breakdown` dict. -/
structure CostBreakdown where
  outbound_flight : Int
  return_flight : Int
  total_flights : Int
  accommodation : Int
  buffer_activities_transport : Int
  grand_total : Int
  deriving Repr, DecidableEq

/-- One `stays` entry of a persisted booking record. -/
structure BookingStay where
  hotel_id : Option String
  hotel_name : Option String
  city : String
  country : String
  nights : Int
  stay_start : Int
  stay_end : Int
  category : String
  price_per_night_idr : Option Int
  deriving Repr, DecidableEq

/-- A persisted `BookingRecord` (`bookings.json` entry). -/
structure BookingRecord where
  booking_id : String
  created_at : String
  country : String
  cities : List String
  start_date : Int
  end_date : Int
  flight_ids : List String
  hotel_ids : List String
  stays : List BookingStay
  flight_details : List FlightRec
  total_price_idr : Int
  payment_transaction_id : String
  card_last4 : Option String
  deriving Repr, DecidableEq

/-- Payment data handed to `book_itinerary`. -/
structure PaymentInfo where
  auto_book_allowed : Option Bool
  card_last4 : Option String
  deriving Repr, DecidableEq

/-- Result of `simulate_payment` (always a success). -/
structure PaymentResult where
  status : String
  transaction_id : String
  charged_amount_idr : Int
  card_last4 : Option String
  deriving Repr, DecidableEq

/-- `simulate_payment` from `src/tools/booking_tools.py`; the fresh uuid
string is the `txid` parameter. -/
def simulatePayment (totalPrice : Int) (pi2 : PaymentInfo) (txid : String) :
    PaymentResult :=
  { status := "success", transaction_id := txid,
    charged_amount_idr := totalPrice, card_last4 := pi2.card_last4 }

/-- The three JSON stores behind `booking_tools` / `inventory_tools`,
threaded explicitly. -/
structure Store where
  bookings : List BookingRecord
  flights : List FlightRec
  hotels : List HotelRec
  deriving Repr, DecidableEq

/-- `f"{n:04d}"` for the non-negative sequence numbers the ledger uses. -/
def pad4 (n : Nat) : String :=
  let s := toString n
  String.mk (List.replicate (4 - s.length) '0') ++ s

/-- The truthiness filter `[x.get("id") for x in xs if x.get("id")]`:
keep ids that are present and non-empty. -/
def truthyIds (ids : List (Option String)) : List String :=
  ids.filterMap fun i => i.bind fun s => if s = "" then none else some s

/-- The update `_decrement_inventory` applies to one flight record. -/
def decFlightOne (ids : List String) (f : FlightRec) : FlightRec :=
  if ids.contains (f.id.getD "") then
    { f with seats_left := max 0 (f.seats_left - 1) }
  else f

/-- The update `_decrement_inventory` applies to one hotel record. -/
def decHotelOne (ids : List String) (h : HotelRec) : HotelRec :=
  if ids.contains (h.id.getD "") then
    { h with rooms_left := max 0 (h.rooms_left - 1) }
  else h

/-- `_decrement_inventory(FLIGHTS_FILE, ids, "seats_left")`: each record
whose id is among `ids` loses one seat, floored at 0; the early return on
an empty id list and the skipped write when nothing changed are
behaviourally the identity. -/
def decrementFlightsInv (ids : List String) (l : List FlightRec) : List FlightRec :=
  if ids.isEmpty then l else l.map (decFlightOne ids)

/-- `_decrement_inventory(HOTELS_FILE, ids, "rooms_left")`. -/
def decrementHotelsInv (ids : List String) (l : List HotelRec) : List HotelRec :=
  if ids.isEmpty then l else l.map (decHotelOne ids)

/-- Build one `stays` entry of a booking record. -/
def mkBookingStay (c : ChosenHotel) : BookingStay :=
  { hotel_id := c.hotel.id, hotel_name := c.hotel.name, city := c.hotel.city,
    country := c.hotel.country, nights := c.nights, stay_start := c.stay_start,
    stay_end := c.stay_end, category := c.hotel.category,
    price_per_night_idr := c.hotel.price_per_night_idr }

/-- `create_booking` from `src/tools/booking_tools.py`: build the record
with the next sequential id, append it to the ledger, then decrement the
flight and hotel inventories for the booked ids. -/
def createBooking (store : Store) (country : String) (cities : List String)
    (startDate endDate : Int) (flights : List FlightRec)
    (hotels : List ChosenHotel) (totalPrice : Int) (paymentInfo : PaymentInfo)
    (paymentResult : PaymentResult) (createdAt : String) :
    BookingRecord × Store :=
  let bookingId := "BK-" ++ pad4 (store.bookings.length + 1)
  let flightIds := truthyIds (flights.map (·.id))
  let hotelIds := truthyIds (hotels.map (·.hotel.id))
  let record : BookingRecord :=
    { booking_id := bookingId, created_at := createdAt, country := country,
      cities := cities, start_date := startDate, end_date := endDate,
      flight_ids := flightIds, hotel_ids := hotelIds,
      stays := hotels.map mkBookingStay, flight_details := flights,
      total_price_idr := totalPrice,
      payment_transaction_id := paymentResult.transaction_id,
      card_last4 := paymentInfo.card_last4 }
  (record,
   { bookings := store.bookings ++ [record],
     flights := decrementFlightsInv flightIds store.flights,
     hotels := decrementHotelsInv hotelIds store.hotels })

/-- The result dict of `book_itinerary`.  The source returns two dict
shapes (`booked` carries `booking_record`, `simulation_only` carries
`proposed_flights`/`proposed_hotels`); the embedding carries all fields in
one structure — in the booked branch the proposed selections coincide with
`booking_record.flight_details` / `booking_record.stays`, and
`booking_record` is `none` in the simulation branch. -/
structure BookResult where
  status : String
  total_price_idr : Int
  budget_warning : Bool
  proposed_flights : List FlightRec
  proposed_hotels : List ChosenHotel
  stay_plan : List StayPlanEntry
  cost_breakdown : CostBreakdown
  booking_record : Option BookingRecord
  deriving Repr, DecidableEq

/-- Tail of `book_itinerary` after flights and stays are resolved: cost
aggregation (`int(base_cost * 0.2)` buffer, `int(budget * 1.2)` budget
threshold, both exact integer truncations of the float products at catalog
magnitudes), then either the auto-book commit or the simulation result. -/
def finishBooking (itin : Itinerary) (v : PrefVals) (payment : Option PaymentInfo)
    (createdAt txid : String) (outbound returning : FlightRec)
    (plan : List ChosenHotel) (endDate : Int) (store : Store) :
    BookResult × Store :=
  let outboundCost := flightPrice outbound
  let returnCost := flightPrice returning
  let totalFlights := outboundCost + returnCost
  let totalAccommodation := (plan.map fun h => hotelPrice h.hotel * h.nights).sum
  let baseCost := totalFlights + totalAccommodation
  let extra := Int.tdiv baseCost 5
  let totalPrice := baseCost + extra
  let budgetWarning := decide (totalPrice > Int.tdiv (6 * v.budget_idr) 5)
  let stayPlan := plan.map mkStayEntry
  let cb : CostBreakdown :=
    { outbound_flight := outboundCost, return_flight := returnCost,
      total_flights := totalFlights, accommodation := totalAccommodation,
      buffer_activities_transport := extra, grand_total := totalPrice }
  let simulation : BookResult × Store :=
    ({ status := "simulation_only", total_price_idr := totalPrice,
       budget_warning := budgetWarning, proposed_flights := [outbound, returning],
       proposed_hotels := plan, stay_plan := stayPlan, cost_breakdown := cb,
       booking_record := none }, store)
  match payment with
  | some pi2 =>
    if pi2.auto_book_allowed = some true then
      let payRes := simulatePayment totalPrice pi2 txid
      let (record, store') := createBooking store itin.destination_country
        itin.cities v.start_date endDate [outbound, returning] plan totalPrice
        pi2 payRes createdAt
      ({ status := "booked", total_price_idr := totalPrice,
         budget_warning := budgetWarning, proposed_flights := [outbound, returning],
         proposed_hotels := plan, stay_plan := stayPlan, cost_breakdown := cb,
         booking_record := some record }, store')
    else simulation
  | none => simulation

/-- `book_itinerary` from `src/booker_agent.py`, threading the store.  The
source checks both candidate lists for emptiness and then takes `min` of
each; `minByKey?` is `none` exactly on the empty list, so the single match
is extensionally the same test. -/
def bookItinerary (itin : Itinerary) (prefs : UserPrefs)
    (payment : Option PaymentInfo) (createdAt txid : String) (store : Store) :
    Except BookerError BookResult × Store :=
  match validatePrefs prefs with
  | none => (.error .invalidPreferences, store)
  | some v =>
    let endDate := v.start_date + (v.trip_length_days - 1)
    if itin.cities.isEmpty then (.error .emptyItinerary, store)
    else
      let fr := findFlightsForTrip store.flights v.origin_city
        (itin.cities.head?.getD "") (itin.cities.getLast?.getD "")
        v.start_date endDate
      match minByKey? flightPrice fr.outbound_options,
            minByKey? flightPrice fr.return_options with
      | some ob, some rt =>
        let nightsMap := splitNightsAcrossCities itin.cities v.trip_length_days
        match resolveStays store.hotels itin.destination_country v.travel_style
            nightsMap v.start_date itin.cities 0 with
        | .error e => (.error e, store)
        | .ok plan =>
          let r := finishBooking itin v payment createdAt txid ob rt plan endDate store
          (.ok r.1, r.2)
      | _, _ => (.error .noFlightsAvailable, store)

/-! ### Concrete sample data used by the claim witnesses -/

/-- Outbound flight on the desired route/date priced 700000. -/
def flightF1 : FlightRec :=
  { id := some "f1", fromCity := "jakarta", toCity := "tokyo", date := some 1000,
    seats_left := 2, base_price_idr := some 700000 }

/-- Outbound flight on the desired route/date priced 500000. -/
def flightF2 : FlightRec :=
  { id := some "f2", fromCity := "jakarta", toCity := "tokyo", date := some 1000,
    seats_left := 3, base_price_idr := some 500000 }

/-- Exact-date return flight. -/
def flightF3 : FlightRec :=
  { id := some "f3", fromCity := "osaka", toCity := "jakarta", date := some 1004,
    seats_left := 1, base_price_idr := some 400000 }

def sampleFlights : List FlightRec := [flightF1, flightF2, flightF3]

/-- A luxury hotel in tokyo. -/
def hotelH1 : HotelRec :=
  { id := some "h1", name := some "Tokyo Grand", city := "tokyo", country := "japan",
    category := "luxury", price_per_night_idr := some 200000, rooms_left := 2,
    available_from := some 900, available_to := some 1100 }

/-- The only osaka hotel is mid-range (exercising the style downgrade). -/
def hotelH2 : HotelRec :=
  { id := some "h2", name := some "Osaka Inn", city := "osaka", country := "japan",
    category := "mid-range", price_per_night_idr := some 100000, rooms_left := 1,
    available_from := some 900, available_to := some 1100 }

def sampleHotels : List HotelRec := [hotelH1, hotelH2]

def sampleStore : Store :=
  { bookings := [], flights := sampleFlights, hotels := sampleHotels }

def sampleItin : Itinerary := { destination_country := "japan", cities := ["tokyo", "osaka"] }

def samplePrefs : UserPrefs :=
  { origin_city := some "jakarta", travel_style := some "luxury",
    budget_idr := some 1000000, trip_length_days := some 5, start_date := some 1000 }

/-- The hotel selections the sample run produces: three nights in tokyo
(days 1000-1002), two in osaka (days 1003-1004). -/
def sampleChosenHotels : List ChosenHotel :=
  [ { hotel := hotelH1, nights := 3, stay_start := 1000, stay_end := 1002 },
    { hotel := hotelH2, nights := 2, stay_start := 1003, stay_end := 1004 } ]

/-- The full result of the sample simulation run. -/
def sampleResult : BookResult :=
  { status := "simulation_only", total_price_idr := 2040000, budget_warning := true,
    proposed_flights := [flightF2, flightF3],
    proposed_hotels := sampleChosenHotels,
    stay_plan := sampleChosenHotels.map mkStayEntry,
    cost_breakdown :=
      { outbound_flight := 500000, return_flight := 400000, total_flights := 900000,
        accommodation := 800000, buffer_activities_transport := 340000,
        grand_total := 2040000 },
    booking_record := none }

instance {e a : Type} [DecidableEq e] [DecidableEq a] : DecidableEq (Except e a) := fun x y =>
  match x, y with
  | .error u, .error u' =>
    if h : u = u' then isTrue (by rw [h]) else isFalse (by intro hh; cases hh; exact h rfl)
  | .error _, .ok _ => isFalse (by intro hh; cases hh)
  | .ok _, .error _ => isFalse (by intro hh; cases hh)
  | .ok u, .ok u' =>
    if h : u = u' then isTrue (by rw [h]) else isFalse (by intro hh; cases hh; exact h rfl)

/-! ### Properties of `minByKey` (Python `min(l, key=k)`) -/

theorem minByKey_cons {α : Type} (key : α → Int) (x a : α) (xs : List α) :
    minByKey key x (a :: xs) = minByKey key (if key a < key x then a else x) xs := rfl

/-- `min(l, key=k)` returns the first element attaining the minimal key. -/
theorem minByKey_isFirstMin {α : Type} (key : α → Int) :
    ∀ (xs : List α) (x : α), IsFirstMin key (x :: xs) (minByKey key x xs) := by
  intro xs
  induction xs with
  | nil =>
    intro x
    exact ⟨[], [], rfl, by simp, by simp⟩
  | cons a xs ih =>
    intro x
    by_cases hax : key a < key x
    · rw [minByKey_cons, if_pos hax]
      obtain ⟨l1, l2, heq, h1, h2⟩ := ih a
      set r := minByKey key a xs with hr
      cases l1 with
      | nil =>
        simp only [List.nil_append, List.cons.injEq] at heq
        refine ⟨[x], l2, ?_, ?_, h2⟩
        · rw [List.singleton_append, ← heq.1, ← heq.2]
        · intro y hy
          simp only [List.mem_singleton] at hy
          subst hy
          rw [← heq.1]
          exact hax
      | cons c l1' =>
        simp only [List.cons_append, List.cons.injEq] at heq
        have hra : key r < key a := by
          rw [heq.1]
          exact h1 c (List.mem_cons_self c l1')
        refine ⟨x :: a :: l1', l2, ?_, ?_, h2⟩
        · rw [List.cons_append, List.cons_append, heq.2]
        · intro y hy
          rcases List.mem_cons.1 hy with hy | hy
          · subst hy
            exact hra.trans hax
          · rcases List.mem_cons.1 hy with hy | hy
            · subst hy
              exact hra
            · exact h1 y (List.mem_cons_of_mem c hy)
    · have hxa : key x ≤ key a := le_of_not_lt hax
      rw [minByKey_cons, if_neg hax]
      obtain ⟨l1, l2, heq, h1, h2⟩ := ih x
      set r := minByKey key x xs with hr
      cases l1 with
      | nil =>
        simp only [List.nil_append, List.cons.injEq] at heq
        refine ⟨[], a :: l2, ?_, by simp, ?_⟩
        · rw [List.nil_append, ← heq.1, ← heq.2]
        · intro y hy
          rcases List.mem_cons.1 hy with hy | hy
          · subst hy
            rw [← heq.1]
            exact hxa
          · exact h2 y hy
      | cons c l1' =>
        simp only [List.cons_append, List.cons.injEq] at heq
        have hrx : key r < key x := by
          rw [heq.1]
          exact h1 c (List.mem_cons_self c l1')
        refine ⟨x :: a :: l1', l2, ?_, ?_, h2⟩
        · rw [List.cons_append, List.cons_append, heq.2]
        · intro y hy
          rcases List.mem_cons.1 hy with hy | hy
          · subst hy
            exact hrx
          · rcases List.mem_cons.1 hy with hy | hy
            · subst hy
              exact hrx.trans_le hxa
            · exact h1 y (List.mem_cons_of_mem c hy)

/-- A list has at most one first-minimum. -/
theorem isFirstMin_unique {α : Type} (key : α → Int) :
    ∀ (l : List α) (r r' : α), IsFirstMin key l r → IsFirstMin key l r' → r = r' := by
  intro l
  induction l with
  | nil =>
    intro r r' h _
    obtain ⟨l1, l2, e1, -, -⟩ := h
    cases l1 <;> simp at e1
  | cons a t ih =>
    intro r r' h h'
    obtain ⟨l1, l2, e1, p1, q1⟩ := h
    obtain ⟨m1, m2, e2, p2, q2⟩ := h'
    cases l1 with
    | nil =>
      cases m1 with
      | nil =>
        simp only [List.nil_append, List.cons.injEq] at e1 e2
        rw [← e1.1, ← e2.1]
      | cons d m1' =>
        exfalso
        simp only [List.nil_append, List.cons_append, List.cons.injEq] at e1 e2
        have hr'_mem : r' ∈ l2 := by
          rw [← e1.2, e2.2]
          exact List.mem_append.2 (Or.inr (List.mem_cons_self r' m2))
        have h1 : key r ≤ key r' := q1 r' hr'_mem
        have h2 : key r' < key r := by
          apply p2
          rw [← e2.1, e1.1]
          exact List.mem_cons_self r m1'
        omega
    | cons c l1' =>
      cases m1 with
      | nil =>
        exfalso
        simp only [List.nil_append, List.cons_append, List.cons.injEq] at e1 e2
        have hr_mem : r ∈ m2 := by
          rw [← e2.2, e1.2]
          exact List.mem_append.2 (Or.inr (List.mem_cons_self r l2))
        have h1 : key r' ≤ key r := q2 r hr_mem
        have h2 : key r < key r' := by
          apply p1
          rw [← e1.1, e2.1]
          exact List.mem_cons_self r' l1'
        omega
      | cons d m1' =>
        simp only [List.cons_append, List.cons.injEq] at e1 e2
        refine ih r r' ⟨l1', l2, e1.2, ?_, q1⟩ ⟨m1', m2, e2.2, ?_, q2⟩
        · exact fun y hy => p1 y (List.mem_cons_of_mem c hy)
        · exact fun y hy => p2 y (List.mem_cons_of_mem d hy)

theorem minByKey?_isFirstMin {α : Type} (key : α → Int) {l : List α} {r : α}
    (h : minByKey? key l = some r) : IsFirstMin key l r := by
  cases l with
  | nil => simp [minByKey?] at h
  | cons x xs =>
    simp only [minByKey?, Option.some.injEq] at h
    exact h ▸ minByKey_isFirstMin key xs x

theorem minByKey?_eq_none_iff {α : Type} (key : α → Int) (l : List α) :
    minByKey? key l = none ↔ l = [] := by
  cases l <;> simp [minByKey?]

/-- Membership and global minimality, extracted from `IsFirstMin`. -/
theorem isFirstMin_mem_le {α : Type} (key : α → Int) {l : List α} {r : α}
    (h : IsFirstMin key l r) : r ∈ l ∧ ∀ y ∈ l, key r ≤ key y := by
  obtain ⟨l1, l2, e, p, q⟩ := h
  subst e
  constructor
  · exact List.mem_append.2 (Or.inr (List.mem_cons_self r l2))
  · intro y hy
    rcases List.mem_append.1 hy with hy | hy
    · exact le_of_lt (p y hy)
    · rcases List.mem_cons.1 hy with hy | hy
      · exact hy ▸ le_refl _
      · exact q y hy

/-! ### Properties of the night allocator -/

theorem dictInsert_of_not_mem {k : String} {v : Int} :
    ∀ {l : List (String × Int)}, k ∉ l.map Prod.fst → dictInsert k v l = l ++ [(k, v)] := by
  intro l
  induction l with
  | nil => intro; rfl
  | cons p rest ih =>
    intro h
    simp only [List.map_cons, List.mem_cons, not_or] at h
    rw [dictInsert, if_neg (fun e => h.1 e.symm), ih h.2, List.cons_append]

/-- Folding `dictInsert` over enumerated pairs with pairwise-distinct keys
that are all fresh for the accumulator just appends the bindings. -/
theorem foldl_dictInsert (f : Nat → Int) :
    ∀ (ps : List (Nat × String)) (acc : List (String × Int)),
      (ps.map Prod.snd).Nodup →
      (∀ c ∈ ps.map Prod.snd, c ∉ acc.map Prod.fst) →
      ps.foldl (fun acc p => dictInsert p.2 (f p.1) acc) acc
        = acc ++ ps.map (fun p => (p.2, f p.1)) := by
  intro ps
  induction ps with
  | nil => intro acc _ _; simp
  | cons p ps ih =>
    intro acc hnd hfresh
    simp only [List.map_cons, List.nodup_cons] at hnd
    have hp : p.2 ∉ acc.map Prod.fst :=
      hfresh p.2 (by simp)
    rw [List.foldl_cons, dictInsert_of_not_mem hp, ih _ hnd.2]
    · simp [List.append_assoc]
    · intro c hc
      simp only [List.map_append, List.mem_append, List.map_cons, List.map_nil,
        List.mem_singleton, not_or]
      refine ⟨hfresh c (List.mem_cons_of_mem _ hc), ?_⟩
      intro e
      exact hnd.1 (e ▸ hc)

/-- With pairwise-distinct cities the allocation dict is exactly the list
of per-index bindings. -/
theorem splitNights_eq_map (cities : List String) (T : Int) (hnd : cities.Nodup) :
    splitNightsAcrossCities cities T
      = cities.enum.map (fun p =>
          (p.2, nightAlloc (T / (cities.length : Int)) (T % (cities.length : Int)) p.1)) := by
  unfold splitNightsAcrossCities
  by_cases he : cities.isEmpty
  · rw [if_pos he]
    rw [List.isEmpty_iff] at he
    subst he
    rfl
  · rw [if_neg he]
    rw [foldl_dictInsert _ cities.enum []]
    · rw [List.nil_append]
    · rw [List.enum_map_snd]
      exact hnd
    · simp

theorem lookup_of_nodup_keys :
    ∀ (l : List (String × Int)), (l.map Prod.fst).Nodup →
      ∀ i (h : i < l.length), l.lookup (l.get ⟨i, h⟩).1 = some (l.get ⟨i, h⟩).2 := by
  intro l
  induction l with
  | nil => intro _ i h; simp at h
  | cons p rest ih =>
    intro hnd i h
    simp only [List.map_cons, List.nodup_cons] at hnd
    cases i with
    | zero =>
      simp [List.lookup]
    | succ n =>
      have hn : n < rest.length := by simpa using h
      have hkey : (rest.get ⟨n, hn⟩).1 ≠ p.1 := by
        intro e
        exact hnd.1 (e ▸ List.mem_map_of_mem Prod.fst (rest.get_mem n hn))
      have : ((rest.get ⟨n, hn⟩).1 == p.1) = false := beq_eq_false_iff_ne.2 hkey
      simp only [List.get_cons_succ]
      rw [List.lookup, this]
      exact ih hnd.2 n hn

theorem sum_range_nightAlloc (base : Int) :
    ∀ (N : Nat) (r : Int), 0 ≤ r →
      ((List.range N).map (nightAlloc base r)).sum = N * base + min (N : Int) r := by
  intro N
  induction N with
  | zero =>
    intro r hr
    simp [min_eq_left hr]
  | succ n ih =>
    intro r hr
    rw [List.range_succ, List.map_append, List.sum_append, ih r hr]
    simp only [List.map_cons, List.map_nil, List.sum_cons, List.sum_nil, nightAlloc]
    rcases lt_or_le (n : Int) r with h | h
    · rw [if_pos h, min_eq_left (le_of_lt h),
        min_eq_left (by push_cast; omega : ((n + 1 : Nat) : Int) ≤ r)]
      push_cast
      ring
    · rw [if_neg (not_lt.2 h), min_eq_right h,
        min_eq_right (by push_cast; omega : r ≤ ((n + 1 : Nat) : Int))]
      push_cast
      ring

/-- The allocation dict read back at index `i` of the city list. -/
theorem splitNights_lookup (cities : List String) (T : Int) (hnd : cities.Nodup)
    (i : Nat) (h : i < cities.length) :
    (splitNightsAcrossCities cities T).lookup (cities.get ⟨i, h⟩)
      = some (nightAlloc (T / (cities.length : Int)) (T % (cities.length : Int)) i) := by
  rw [splitNights_eq_map cities T hnd]
  set g := fun p : Nat × String =>
    (p.2, nightAlloc (T / (cities.length : Int)) (T % (cities.length : Int)) p.1) with hg
  have hkeys : ((cities.enum.map g).map Prod.fst).Nodup := by
    have : (cities.enum.map g).map Prod.fst = cities.enum.map Prod.snd := by
      rw [List.map_map]
      rfl
    rw [this, List.enum_map_snd]
    exact hnd
  have hlen : i < (cities.enum.map g).length := by
    simpa [List.enum_length] using h
  have hget : (cities.enum.map g).get ⟨i, hlen⟩
      = (cities.get ⟨i, h⟩,
         nightAlloc (T / (cities.length : Int)) (T % (cities.length : Int)) i) := by
    simp only [List.get_eq_getElem, List.getElem_map, List.getElem_enum, hg]
  have := lookup_of_nodup_keys (cities.enum.map g) hkeys i hlen
  rw [hget] at this
  exact this

/-- Sum of the allocated nights. -/
theorem splitNights_sum (cities : List String) (T : Int) (hnd : cities.Nodup)
    (hne : cities ≠ []) :
    ((splitNightsAcrossCities cities T).map Prod.snd).sum = T := by
  have hNpos : 0 < cities.length := List.length_pos.2 hne
  have hN0 : (cities.length : Int) ≠ 0 := by
    simpa using Nat.pos_iff_ne_zero.1 hNpos
  rw [splitNights_eq_map cities T hnd]
  rw [List.map_map]
  have : (Prod.snd ∘ fun p : Nat × String =>
      (p.2, nightAlloc (T / (cities.length : Int)) (T % (cities.length : Int)) p.1))
      = (fun p : Nat × String =>
          nightAlloc (T / (cities.length : Int)) (T % (cities.length : Int)) p.1) := rfl
  rw [this]
  have hmm : cities.enum.map (fun p : Nat × String =>
      nightAlloc (T / (cities.length : Int)) (T % (cities.length : Int)) p.1)
      = (cities.enum.map Prod.fst).map
          (nightAlloc (T / (cities.length : Int)) (T % (cities.length : Int))) := by
    rw [List.map_map]
    rfl
  rw [hmm, List.enum_map_fst]
  have hr0 : 0 ≤ T % (cities.length : Int) := Int.emod_nonneg T hN0
  have hrN : T % (cities.length : Int) < (cities.length : Int) :=
    Int.emod_lt_of_pos T (by exact_mod_cast hNpos)
  rw [sum_range_nightAlloc _ _ _ hr0, min_eq_right (le_of_lt hrN)]
  exact Int.ediv_add_emod T (cities.length : Int)

/-- C1: for every ordered list of N ≥ 1 distinct city names and every
total_days ≥ 1, the allocator's mapping contains every input city, the
city at position i is mapped to base + 1 nights when i < remainder and to
base nights otherwise (base = total_days div N, remainder =
total_days mod N), and the values sum to exactly total_days. -/
theorem c1_night_allocation (cities : List String) (T : Int)
    (hne : cities ≠ []) (hnd : cities.Nodup) (hT : 1 ≤ T) :
    (∀ c ∈ cities, ((splitNightsAcrossCities cities T).lookup c).isSome) ∧
    (∀ i (h : i < cities.length),
      (splitNightsAcrossCities cities T).lookup (cities.get ⟨i, h⟩)
        = some (nightAlloc (T / (cities.length : Int)) (T % (cities.length : Int)) i)) ∧
    ((splitNightsAcrossCities cities T).map Prod.snd).sum = T := by
  refine ⟨?_, fun i h => splitNights_lookup cities T hnd i h,
    splitNights_sum cities T hnd hne⟩
  intro c hc
  obtain ⟨⟨i, h⟩, rfl⟩ := List.mem_iff_get.1 hc
  rw [splitNights_lookup cities T hnd i h]
  rfl

/-- C1 witness: three distinct cities, seven days: allocation 3/2/2,
summing to 7, every city present. -/
theorem c1_night_allocation_witness :
    (splitNightsAcrossCities ["a", "b", "c"] 7).lookup "a" = some 3 ∧
    (splitNightsAcrossCities ["a", "b", "c"] 7).lookup "b" = some 2 ∧
    (splitNightsAcrossCities ["a", "b", "c"] 7).lookup "c" = some 2 ∧
    ((splitNightsAcrossCities ["a", "b", "c"] 7).map Prod.snd).sum = 7 ∧
    (∀ c ∈ (["a", "b", "c"] : List String),
      ((splitNightsAcrossCities ["a", "b", "c"] 7).lookup c).isSome) :=
  ⟨by decide, by decide, by decide,
   (c1_night_allocation ["a", "b", "c"] 7 (by decide) (by decide) (by decide)).2.2,
   (c1_night_allocation ["a", "b", "c"] 7 (by decide) (by decide) (by decide)).1⟩

/-! ### Stay windows -/

/-- The contiguous stay windows laid end to end from `start`: one
`(stayStart, nights)` pair per night count. -/
def windows (start : Int) : List Int → List (Int × Int)
  | [] => []
  | n :: ns => (start, n) :: windows (start + n) ns

theorem windows_map_snd (start : Int) (ns : List Int) :
    (windows start ns).map Prod.snd = ns := by
  induction ns generalizing start with
  | nil => rfl
  | cons n ns ih => simp [windows, ih]

theorem windows_chain (ns : List Int) (start : Int) :
    List.Chain' (fun p q : Int × Int => q.1 = p.1 + p.2) (windows start ns) := by
  induction ns generalizing start with
  | nil => simp [windows]
  | cons n ns ih =>
    rw [windows, List.chain'_cons']
    refine ⟨?_, ih (start + n)⟩
    intro q hq
    cases ns with
    | nil => simp [windows] at hq
    | cons m ms =>
      simp only [windows, List.head?_cons, Option.mem_def, Option.some.injEq] at hq
      rw [← hq]

theorem windows_head (start n : Int) (ns : List Int) :
    (windows start (n :: ns)).head? = some (start, n) := rfl

theorem windows_getLast (ns : List Int) (start : Int) :
    ∀ p ∈ (windows start ns).getLast?, p.1 + p.2 = start + ns.sum := by
  induction ns generalizing start with
  | nil => simp [windows]
  | cons n ns ih =>
    intro p hp
    cases ns with
    | nil =>
      simp only [windows, List.getLast?_singleton, Option.mem_def,
        Option.some.injEq] at hp
      simp [← hp]
    | cons m ms =>
      rw [windows, windows, List.getLast?_cons_cons] at hp
      rw [← windows] at hp
      have := ih (start + n) p hp
      rw [this]
      simp only [List.sum_cons]
      ring

/-! ### The per-city stay loop -/

/-- Inversion of a successful `resolveStays` run: the `(stayStart, nights)`
pairs are exactly the stay windows of the positive allocated night counts
in visiting order, and every entry's stay end is start + nights - 1. -/
theorem resolveStays_ok (hotels : List HotelRec) (country style : String)
    (nightsMap : List (String × Int)) (startDate : Int) :
    ∀ (cs : List String) (off : Int) (plan : List ChosenHotel),
      resolveStays hotels country style nightsMap startDate cs off = .ok plan →
      plan.map (fun c => (c.stay_start, c.nights))
        = windows (startDate + off)
            ((cs.map fun city => (nightsMap.lookup city).getD 0).filter
              fun n => decide (0 < n))
      ∧ ∀ c ∈ plan, c.stay_end = c.stay_start + c.nights - 1 := by
  intro cs
  induction cs with
  | nil =>
    intro off plan h
    simp only [resolveStays] at h
    cases h
    simp [windows]
  | cons city rest ih =>
    intro off plan h
    simp only [resolveStays] at h
    by_cases hn : (nightsMap.lookup city).getD 0 ≤ 0
    · rw [if_pos hn] at h
      have := ih off plan h
      rw [List.map_cons, List.filter_cons, if_neg (by simpa using hn)]
      exact this
    · rw [if_neg hn] at h
      push_neg at hn
      cases hsel : selectHotelForCity hotels city country style
          (startDate + off) (startDate + off + (nightsMap.lookup city).getD 0 - 1) with
      | error e => rw [hsel] at h; cases h
      | ok hrec =>
        rw [hsel] at h
        cases hrest : resolveStays hotels country style nightsMap startDate rest
            (off + (nightsMap.lookup city).getD 0) with
        | error e => rw [hrest] at h; cases h
        | ok tail =>
          rw [hrest] at h
          cases h
          obtain ⟨ih1, ih2⟩ := ih _ tail hrest
          constructor
          · simp only [List.map_cons, List.filter_cons]
            rw [if_pos (by simpa using hn), windows]
            congr 1
            rw [ih1]
            congr 1
            ring
          · intro c hc
            rcases List.mem_cons.1 hc with hc | hc
            · subst hc
              rfl
            · exact ih2 c hc

/-! ### Inversion of `bookItinerary` -/

/-- Field values of the result `finishBooking` builds (identical in the
booked and simulation branches). -/
theorem finishBooking_result (itin : Itinerary) (v : PrefVals)
    (payment : Option PaymentInfo) (createdAt txid : String)
    (ob rt : FlightRec) (plan : List ChosenHotel) (endDate : Int) (store : Store) :
    (finishBooking itin v payment createdAt txid ob rt plan endDate store).1.stay_plan
        = plan.map mkStayEntry ∧
    (finishBooking itin v payment createdAt txid ob rt plan endDate store).1.proposed_flights
        = [ob, rt] ∧
    (finishBooking itin v payment createdAt txid ob rt plan endDate store).1.proposed_hotels
        = plan ∧
    (finishBooking itin v payment createdAt txid ob rt plan endDate store).1.cost_breakdown
        = { outbound_flight := flightPrice ob, return_flight := flightPrice rt,
            total_flights := flightPrice ob + flightPrice rt,
            accommodation := (plan.map fun h => hotelPrice h.hotel * h.nights).sum,
            buffer_activities_transport :=
              Int.tdiv (flightPrice ob + flightPrice rt
                + (plan.map fun h => hotelPrice h.hotel * h.nights).sum) 5,
            grand_total := flightPrice ob + flightPrice rt
              + (plan.map fun h => hotelPrice h.hotel * h.nights).sum
              + Int.tdiv (flightPrice ob + flightPrice rt
                  + (plan.map fun h => hotelPrice h.hotel * h.nights).sum) 5 } ∧
    (finishBooking itin v payment createdAt txid ob rt plan endDate store).1.total_price_idr
        = flightPrice ob + flightPrice rt
          + (plan.map fun h => hotelPrice h.hotel * h.nights).sum
          + Int.tdiv (flightPrice ob + flightPrice rt
              + (plan.map fun h => hotelPrice h.hotel * h.nights).sum) 5 ∧
    (finishBooking itin v payment createdAt txid ob rt plan endDate store).1.budget_warning
        = decide (flightPrice ob + flightPrice rt
            + (plan.map fun h => hotelPrice h.hotel * h.nights).sum
            + Int.tdiv (flightPrice ob + flightPrice rt
                + (plan.map fun h => hotelPrice h.hotel * h.nights).sum) 5
            > Int.tdiv (6 * v.budget_idr) 5) := by
  cases payment with
  | none => exact ⟨rfl, rfl, rfl, rfl, rfl, rfl⟩
  | some pi2 =>
    by_cases hab : pi2.auto_book_allowed = some true
    · simp [finishBooking, hab]
    · simp [finishBooking, hab]

/-- Successful runs of `bookItinerary` decompose into the pipeline stages:
validated preferences, a non-empty city list, a first minimum of each
flight candidate list, a successful stay resolution, and the
`finishBooking` output. -/
theorem bookItinerary_ok (itin : Itinerary) (prefs : UserPrefs)
    (payment : Option PaymentInfo) (createdAt txid : String) (store : Store)
    (res : BookResult) (st' : Store)
    (h : bookItinerary itin prefs payment createdAt txid store = (.ok res, st')) :
    ∃ v ob rt plan,
      validatePrefs prefs = some v ∧
      itin.cities ≠ [] ∧
      minByKey? flightPrice (findFlightsForTrip store.flights v.origin_city
        (itin.cities.head?.getD "") (itin.cities.getLast?.getD "")
        v.start_date (v.start_date + (v.trip_length_days - 1))).outbound_options
        = some ob ∧
      minByKey? flightPrice (findFlightsForTrip store.flights v.origin_city
        (itin.cities.head?.getD "") (itin.cities.getLast?.getD "")
        v.start_date (v.start_date + (v.trip_length_days - 1))).return_options
        = some rt ∧
      resolveStays store.hotels itin.destination_country v.travel_style
        (splitNightsAcrossCities itin.cities v.trip_length_days) v.start_date
        itin.cities 0 = .ok plan ∧
      res = (finishBooking itin v payment createdAt txid ob rt plan
        (v.start_date + (v.trip_length_days - 1)) store).1 ∧
      st' = (finishBooking itin v payment createdAt txid ob rt plan
        (v.start_date + (v.trip_length_days - 1)) store).2 := by
  unfold bookItinerary at h
  cases hv : validatePrefs prefs with
  | none =>
    rw [hv] at h
    simp at h
  | some v =>
    rw [hv] at h
    simp only at h
    by_cases hc : itin.cities.isEmpty
    · rw [if_pos hc] at h
      simp at h
    · rw [if_neg hc] at h
      cases hob : minByKey? flightPrice (findFlightsForTrip store.flights v.origin_city
          (itin.cities.head?.getD "") (itin.cities.getLast?.getD "")
          v.start_date (v.start_date + (v.trip_length_days - 1))).outbound_options with
      | none =>
        rw [hob] at h
        simp at h
      | some ob =>
        rw [hob] at h
        cases hrt : minByKey? flightPrice (findFlightsForTrip store.flights v.origin_city
            (itin.cities.head?.getD "") (itin.cities.getLast?.getD "")
            v.start_date (v.start_date + (v.trip_length_days - 1))).return_options with
        | none =>
          rw [hrt] at h
          simp at h
        | some rt =>
          rw [hrt] at h
          cases hps : resolveStays store.hotels itin.destination_country v.travel_style
              (splitNightsAcrossCities itin.cities v.trip_length_days) v.start_date
              itin.cities 0 with
          | error e =>
            rw [hps] at h
            simp at h
          | ok plan =>
            rw [hps] at h
            simp only [Prod.mk.injEq, Except.ok.injEq] at h
            exact ⟨v, ob, rt, plan, rfl, by simpa using hc, hob, hrt, hps,
              h.1.symm, h.2.symm⟩

/-! ### Night-count facts feeding the contiguity claim -/

/-- Reading the allocation dict back along the city list gives the
per-index allocations. -/
theorem cities_lookup_map (cities : List String) (T : Int) (hnd : cities.Nodup) :
    (cities.map fun c => ((splitNightsAcrossCities cities T).lookup c).getD 0)
      = (List.range cities.length).map
          (nightAlloc (T / (cities.length : Int)) (T % (cities.length : Int))) := by
  apply List.ext_getElem (by simp)
  intro i h1 h2
  simp only [List.getElem_map, List.getElem_range]
  have h : i < cities.length := by simpa using h1
  have := splitNights_lookup cities T hnd i h
  simp only [List.get_eq_getElem] at this
  rw [this]
  rfl

theorem sum_filter_pos_of_nonneg :
    ∀ (l : List Int), (∀ x ∈ l, 0 ≤ x) →
      (l.filter fun n => decide (0 < n)).sum = l.sum := by
  intro l
  induction l with
  | nil => intro; rfl
  | cons x xs ih =>
    intro hnn
    rw [List.filter_cons]
    by_cases hx : 0 < x
    · rw [if_pos (by simpa using hx), List.sum_cons, List.sum_cons,
        ih fun y hy => hnn y (List.mem_cons_of_mem x hy)]
    · rw [if_neg (by simpa using hx), List.sum_cons,
        ih fun y hy => hnn y (List.mem_cons_of_mem x hy)]
      have : x = 0 := le_antisymm (not_lt.1 hx) (hnn x (List.mem_cons_self x xs))
      omega

theorem nightAlloc_nonneg {base r : Int} (hb : 0 ≤ base) (i : Nat) :
    0 ≤ nightAlloc base r i := by
  unfold nightAlloc
  split <;> omega

/-- With at least one day and one city, the first city always receives a
positive night count. -/
theorem nightAlloc_zero_pos (cities : List String) (T : Int)
    (hne : cities ≠ []) (hT : 1 ≤ T) :
    0 < nightAlloc (T / (cities.length : Int)) (T % (cities.length : Int)) 0 := by
  have hN : 0 < (cities.length : Int) := by
    exact_mod_cast List.length_pos.2 hne
  have h0 : 0 ≤ T % (cities.length : Int) := Int.emod_nonneg T (by omega)
  have heq : (cities.length : Int) * (T / (cities.length : Int))
      + T % (cities.length : Int) = T := Int.ediv_add_emod T _
  have hb : 0 ≤ T / (cities.length : Int) := Int.ediv_nonneg (by omega) (by omega)
  unfold nightAlloc
  simp only [Nat.cast_zero]
  by_cases hr : (0 : Int) < T % (cities.length : Int)
  · rw [if_pos hr]
    omega
  · rw [if_neg hr]
    have hr0 : T % (cities.length : Int) = 0 := le_antisymm (not_lt.1 hr) h0
    rcases lt_or_le 0 (T / (cities.length : Int)) with hb1 | hb1
    · omega
    · exfalso
      have hb0 : T / (cities.length : Int) = 0 := le_antisymm hb1 hb
      rw [hb0, hr0, mul_zero, zero_add] at heq
      omega

/-- Summing the allocation along the city list recovers the total days. -/
theorem lookup_nights_sum (cities : List String) (T : Int) (hnd : cities.Nodup)
    (hne : cities ≠ []) :
    ((cities.map fun c => ((splitNightsAcrossCities cities T).lookup c).getD 0).sum) = T := by
  rw [cities_lookup_map cities T hnd]
  have hNpos : 0 < cities.length := List.length_pos.2 hne
  have hN0 : (cities.length : Int) ≠ 0 := by
    simpa using Nat.pos_iff_ne_zero.1 hNpos
  have hr0 : 0 ≤ T % (cities.length : Int) := Int.emod_nonneg T hN0
  have hrN : T % (cities.length : Int) < (cities.length : Int) :=
    Int.emod_lt_of_pos T (by exact_mod_cast hNpos)
  rw [sum_range_nightAlloc _ _ _ hr0, min_eq_right (le_of_lt hrN)]
  exact Int.ediv_add_emod T (cities.length : Int)

theorem chain'_imp_of_mem {α : Type} {R S : α → α → Prop} :
    ∀ (l : List α), (∀ a ∈ l, ∀ b ∈ l, R a b → S a b) →
      List.Chain' R l → List.Chain' S l := by
  intro l
  induction l with
  | nil => intro _ _; exact List.chain'_nil
  | cons x xs ih =>
    intro himp hch
    cases xs with
    | nil => simp
    | cons y ys =>
      rw [List.chain'_cons] at hch ⊢
      refine ⟨himp x (by simp) y (by simp) hch.1, ?_⟩
      exact ih (fun a ha b hb hr =>
        himp a (List.mem_cons_of_mem x ha) b (List.mem_cons_of_mem x hb) hr) hch.2

/-- The allocation looked up at the head city. -/
theorem splitNights_lookup_head (c0 : String) (crest : List String) (T : Int)
    (hnd : (c0 :: crest).Nodup) :
    (((splitNightsAcrossCities (c0 :: crest) T).lookup c0).getD 0)
      = nightAlloc (T / (((c0 :: crest).length : Nat) : Int))
          (T % (((c0 :: crest).length : Nat) : Int)) 0 := by
  have h := splitNights_lookup (c0 :: crest) T hnd 0 (by simp)
  simp only [List.get_eq_getElem, List.getElem_cons_zero] at h
  rw [h]
  rfl

/-- C2: on every successful resolution over distinct cities with at least
one trip day, the stay plan is non-empty and contiguous: every entry spans
exactly its nights (stay_end = stay_start + nights - 1), each subsequent
stay starts the day after the previous stay ends, the nights sum to
trip_length_days, the first stay starts at start_date, and the last stay
ends at start_date + trip_length_days - 1. -/
theorem c2_contiguous_stays (itin : Itinerary) (prefs : UserPrefs)
    (payment : Option PaymentInfo) (createdAt txid : String) (store : Store)
    (res : BookResult) (st' : Store) (v : PrefVals)
    (hv : validatePrefs prefs = some v)
    (hnd : itin.cities.Nodup) (hT : 1 ≤ v.trip_length_days)
    (h : bookItinerary itin prefs payment createdAt txid store = (.ok res, st')) :
    (∀ e ∈ res.stay_plan, e.stay_end = e.stay_start + e.nights - 1) ∧
    List.Chain' (fun a b => b.stay_start = a.stay_end + 1) res.stay_plan ∧
    (res.stay_plan.map fun e => e.nights).sum = v.trip_length_days ∧
    res.stay_plan ≠ [] ∧
    (∀ e ∈ res.stay_plan.head?, e.stay_start = v.start_date) ∧
    (∀ e ∈ res.stay_plan.getLast?, e.stay_end
        = v.start_date + v.trip_length_days - 1) := by
  obtain ⟨v', ob, rt, plan, hv', hne, hob, hrt, hps, hres, hst⟩ :=
    bookItinerary_ok itin prefs payment createdAt txid store res st' h
  rw [hv] at hv'
  have hvv : v = v' := by simpa using hv'
  subst hvv
  obtain ⟨c0, crest, hcs⟩ := List.exists_cons_of_ne_nil hne
  rw [hcs] at hps hnd
  obtain ⟨hw, hend⟩ := resolveStays_ok store.hotels itin.destination_country
    v.travel_style (splitNightsAcrossCities (c0 :: crest) v.trip_length_days)
    v.start_date (c0 :: crest) 0 plan hps
  rw [add_zero] at hw
  have hsp' : res.stay_plan = plan.map mkStayEntry := by
    rw [hres]
    exact (finishBooking_result itin v payment createdAt txid ob rt plan
      (v.start_date + (v.trip_length_days - 1)) store).1
  set T := v.trip_length_days with hTdef
  set S := v.start_date with hSdef
  set lookupF := fun c : String =>
    ((splitNightsAcrossCities (c0 :: crest) T).lookup c).getD 0 with hlf
  set ns := ((c0 :: crest).map lookupF).filter (fun n => decide (0 < n)) with hns
  have hmapeq : (c0 :: crest).map lookupF
      = (List.range (c0 :: crest).length).map
          (nightAlloc (T / ((c0 :: crest).length : Int))
            (T % ((c0 :: crest).length : Int))) :=
    cities_lookup_map (c0 :: crest) T hnd
  have hbase : 0 ≤ T / (((c0 :: crest).length : Nat) : Int) :=
    Int.ediv_nonneg (by omega) (by positivity)
  have hvalsnn : ∀ x ∈ (c0 :: crest).map lookupF, 0 ≤ x := by
    rw [hmapeq]
    intro x hx
    obtain ⟨i, -, rfl⟩ := List.mem_map.1 hx
    exact nightAlloc_nonneg hbase i
  have hsum : ns.sum = T := by
    rw [hns, sum_filter_pos_of_nonneg _ hvalsnn]
    exact lookup_nights_sum (c0 :: crest) T hnd (by simp)
  have h0pos : 0 < lookupF c0 := by
    show 0 < ((splitNightsAcrossCities (c0 :: crest) T).lookup c0).getD 0
    rw [splitNights_lookup_head c0 crest T hnd]
    exact nightAlloc_zero_pos (c0 :: crest) T (by simp) hT
  have hnscons : ns = lookupF c0 :: ((crest.map lookupF).filter
      (fun n => decide (0 < n))) := by
    rw [hns, List.map_cons, List.filter_cons, if_pos (by simpa using h0pos)]
  have hspw : res.stay_plan.map (fun e => (e.stay_start, e.nights)) = windows S ns := by
    rw [hsp', List.map_map]
    exact hw
  have enda : ∀ e ∈ res.stay_plan, e.stay_end = e.stay_start + e.nights - 1 := by
    intro e he
    rw [hsp'] at he
    obtain ⟨c, hc, rfl⟩ := List.mem_map.1 he
    simpa [mkStayEntry] using hend c hc
  refine ⟨enda, ?_, ?_, ?_, ?_, ?_⟩
  · have hch1 : List.Chain' (fun a b => b.stay_start = a.stay_start + a.nights)
        res.stay_plan := by
      have hcw := windows_chain ns S
      rw [← hspw] at hcw
      exact (List.chain'_map _).1 hcw
    refine chain'_imp_of_mem res.stay_plan ?_ hch1
    intro a ha b _ hr
    have := enda a ha
    omega
  · have hmn : res.stay_plan.map (fun e => e.nights) = ns := by
      have h1 : (res.stay_plan.map (fun e => (e.stay_start, e.nights))).map Prod.snd
          = ns := by
        rw [hspw, windows_map_snd]
      rw [List.map_map] at h1
      exact h1
    rw [hmn, hsum]
  · intro hempty
    rw [hempty] at hspw
    rw [hnscons] at hspw
    simp [windows] at hspw
  · intro e he
    have h1 : (res.stay_plan.head?).map (fun e => (e.stay_start, e.nights))
        = some (S, lookupF c0) := by
      rw [← List.head?_map, hspw, hnscons, windows_head]
    rw [Option.mem_def] at he
    rw [he] at h1
    simp at h1
    omega
  · intro e he
    have hmem : e ∈ res.stay_plan := List.mem_of_mem_getLast? he
    have hendE := enda e hmem
    have h1 : (res.stay_plan.getLast?).map (fun e => (e.stay_start, e.nights))
        = (windows S ns).getLast? := by
      rw [← List.getLast?_map, hspw]
    rw [Option.mem_def] at he
    rw [he] at h1
    have h2 := windows_getLast ns S (e.stay_start, e.nights) (by
      rw [Option.mem_def, ← h1]
      rfl)
    simp only at h2
    omega

/-- C2 witness: the sample two-city five-day run has non-empty contiguous
stays 1000-1002 and 1003-1004 summing to 5 nights. -/
theorem c2_contiguous_stays_witness :
    bookItinerary sampleItin samplePrefs none "t0" "tx" sampleStore
      = (.ok sampleResult, sampleStore) ∧
    ((∀ e ∈ sampleResult.stay_plan, e.stay_end = e.stay_start + e.nights - 1) ∧
     List.Chain' (fun a b => b.stay_start = a.stay_end + 1) sampleResult.stay_plan ∧
     (sampleResult.stay_plan.map fun e => e.nights).sum = 5 ∧
     sampleResult.stay_plan ≠ [] ∧
     (∀ e ∈ sampleResult.stay_plan.head?, e.stay_start = 1000) ∧
     (∀ e ∈ sampleResult.stay_plan.getLast?, e.stay_end = 1004)) :=
  ⟨by decide,
   c2_contiguous_stays sampleItin samplePrefs none "t0" "tx" sampleStore
     sampleResult sampleStore ⟨"jakarta", "luxury", 1000000, 5, 1000⟩
     (by decide) (by decide) (by decide) (by decide)⟩

/-! ### Membership of the selections in the catalog -/

theorem nearestOptions_subset (flights : List FlightRec) (src dst : String)
    (target : Int) :
    ∀ f ∈ nearestOptions flights src dst target,
      f ∈ dateableCandidates flights src dst := by
  intro f hf
  unfold nearestOptions at hf
  have h1 := List.mem_of_mem_take hf
  obtain ⟨p, hp, rfl⟩ := List.mem_map.1 h1
  have h2 : p ∈ (dateableCandidates flights src dst).enum :=
    (List.mem_insertionSort (nearerLe target)).1 hp
  have h3 : p.2 ∈ (dateableCandidates flights src dst).enum.map Prod.snd :=
    List.mem_map_of_mem Prod.snd h2
  rwa [List.enum_map_snd] at h3

theorem findFlights_outbound_mem (flights : List FlightRec)
    (origin firstCity lastCity : String) (startDate returnDate : Int) :
    ∀ f ∈ (findFlightsForTrip flights origin firstCity lastCity
        startDate returnDate).outbound_options, f ∈ flights := by
  intro f hf
  unfold findFlightsForTrip at hf
  simp only at hf
  by_cases he : (exactOptions flights origin firstCity startDate).isEmpty
  · rw [if_pos he] at hf
    exact List.mem_of_mem_filter (nearestOptions_subset flights origin firstCity
      startDate f hf)
  · rw [if_neg he] at hf
    exact List.mem_of_mem_filter hf

theorem findFlights_return_mem (flights : List FlightRec)
    (origin firstCity lastCity : String) (startDate returnDate : Int) :
    ∀ f ∈ (findFlightsForTrip flights origin firstCity lastCity
        startDate returnDate).return_options, f ∈ flights := by
  intro f hf
  unfold findFlightsForTrip at hf
  simp only at hf
  by_cases he : (exactOptions flights lastCity origin returnDate).isEmpty
  · rw [if_pos he] at hf
    exact List.mem_of_mem_filter (nearestOptions_subset flights lastCity origin
      returnDate f hf)
  · rw [if_neg he] at hf
    exact List.mem_of_mem_filter hf

theorem hotelCandidates_subset (hotels : List HotelRec) (city country style : String)
    (stayStart stayEnd : Int) :
    ∀ x ∈ hotelCandidates hotels city country style stayStart stayEnd, x ∈ hotels := by
  intro x hx
  unfold hotelCandidates at hx
  by_cases he : (findHotelsForCity hotels city country style stayStart stayEnd).isEmpty
  · rw [if_pos he] at hx
    cases hfs : fallbackStyle style with
    | none => rw [hfs] at hx; cases hx
    | some fs =>
      rw [hfs] at hx
      exact List.mem_of_mem_filter hx
  · rw [if_neg he] at hx
    exact List.mem_of_mem_filter hx

theorem selectHotel_mem (hotels : List HotelRec) (city country style : String)
    (stayStart stayEnd : Int) (h2 : HotelRec)
    (h : selectHotelForCity hotels city country style stayStart stayEnd = .ok h2) :
    h2 ∈ hotels := by
  unfold selectHotelForCity at h
  cases hm : minByKey? hotelPrice
      (hotelCandidates hotels city country style stayStart stayEnd) with
  | none => rw [hm] at h; cases h
  | some r =>
    rw [hm] at h
    cases h
    exact hotelCandidates_subset hotels city country style stayStart stayEnd _
      (isFirstMin_mem_le hotelPrice (minByKey?_isFirstMin hotelPrice hm)).1

theorem resolveStays_hotels_mem (hotels : List HotelRec) (country style : String)
    (nightsMap : List (String × Int)) (startDate : Int) :
    ∀ (cs : List String) (off : Int) (plan : List ChosenHotel),
      resolveStays hotels country style nightsMap startDate cs off = .ok plan →
      ∀ c ∈ plan, c.hotel ∈ hotels := by
  intro cs
  induction cs with
  | nil =>
    intro off plan h c hc
    simp only [resolveStays] at h
    cases h
    cases hc
  | cons city rest ih =>
    intro off plan h c hc
    simp only [resolveStays] at h
    by_cases hn : (nightsMap.lookup city).getD 0 ≤ 0
    · rw [if_pos hn] at h
      exact ih off plan h c hc
    · rw [if_neg hn] at h
      cases hsel : selectHotelForCity hotels city country style
          (startDate + off) (startDate + off + (nightsMap.lookup city).getD 0 - 1) with
      | error e => rw [hsel] at h; cases h
      | ok hrec =>
        rw [hsel] at h
        cases hrest : resolveStays hotels country style nightsMap startDate rest
            (off + (nightsMap.lookup city).getD 0) with
        | error e => rw [hrest] at h; cases h
        | ok tail =>
          rw [hrest] at h
          cases h
          rcases List.mem_cons.1 hc with hc | hc
          · subst hc
            exact selectHotel_mem hotels city country style _ _ hrec hsel
          · exact ih _ tail hrest c hc

/-- Every resolved stay has a positive night count. -/
theorem resolveStays_nights_pos (hotels : List HotelRec) (country style : String)
    (nightsMap : List (String × Int)) (startDate : Int)
    (cs : List String) (off : Int) (plan : List ChosenHotel)
    (h : resolveStays hotels country style nightsMap startDate cs off = .ok plan) :
    ∀ c ∈ plan, 0 < c.nights := by
  intro c hc
  obtain ⟨hw, -⟩ := resolveStays_ok hotels country style nightsMap startDate cs off plan h
  have h1 : (c.stay_start, c.nights) ∈ windows (startDate + off)
      ((cs.map fun city => (nightsMap.lookup city).getD 0).filter
        fun n => decide (0 < n)) := by
    rw [← hw]
    exact List.mem_map_of_mem _ hc
  have h2 := List.mem_map_of_mem Prod.snd h1
  rw [windows_map_snd] at h2
  have h3 := (List.mem_filter.1 h2).2
  simpa using h3

/-- C3: on every successful resolution over non-negatively priced
inventory, the cost breakdown satisfies: the two proposed flights' base
prices are the outbound/return components, total_flights is their sum,
accommodation is the sum of price-per-night times nights over the selected
hotels, buffer is the floor of 20% of flights + accommodation, grand_total
is their sum (and is the returned total price), and budget_warning holds
exactly when grand_total exceeds the floor of 120% of the budget. -/
theorem c3_cost_breakdown (itin : Itinerary) (prefs : UserPrefs)
    (payment : Option PaymentInfo) (createdAt txid : String) (store : Store)
    (res : BookResult) (st' : Store) (v : PrefVals)
    (hv : validatePrefs prefs = some v)
    (hB : 0 ≤ v.budget_idr)
    (hfp : ∀ f ∈ store.flights, 0 ≤ flightPrice f)
    (hhp : ∀ x ∈ store.hotels, 0 ≤ hotelPrice x)
    (h : bookItinerary itin prefs payment createdAt txid store = (.ok res, st')) :
    res.proposed_flights.map flightPrice
      = [res.cost_breakdown.outbound_flight, res.cost_breakdown.return_flight] ∧
    res.cost_breakdown.total_flights
      = res.cost_breakdown.outbound_flight + res.cost_breakdown.return_flight ∧
    res.cost_breakdown.accommodation
      = (res.proposed_hotels.map fun c => hotelPrice c.hotel * c.nights).sum ∧
    res.cost_breakdown.buffer_activities_transport
      = (res.cost_breakdown.total_flights + res.cost_breakdown.accommodation) / 5 ∧
    res.cost_breakdown.grand_total
      = res.cost_breakdown.total_flights + res.cost_breakdown.accommodation
        + res.cost_breakdown.buffer_activities_transport ∧
    res.total_price_idr = res.cost_breakdown.grand_total ∧
    (res.budget_warning = true ↔
      res.cost_breakdown.grand_total > (6 * v.budget_idr) / 5) := by
  obtain ⟨v', ob, rt, plan, hv', hne, hob, hrt, hps, hres, hst⟩ :=
    bookItinerary_ok itin prefs payment createdAt txid store res st' h
  rw [hv] at hv'
  have hvv : v = v' := by simpa using hv'
  subst hvv
  obtain ⟨-, hpf, hph, hcb, htp, hbw⟩ := finishBooking_result itin v payment
    createdAt txid ob rt plan (v.start_date + (v.trip_length_days - 1)) store
  have hobm : ob ∈ store.flights :=
    findFlights_outbound_mem store.flights v.origin_city
      (itin.cities.head?.getD "") (itin.cities.getLast?.getD "") v.start_date
      (v.start_date + (v.trip_length_days - 1)) ob
      (isFirstMin_mem_le flightPrice (minByKey?_isFirstMin flightPrice hob)).1
  have hrtm : rt ∈ store.flights :=
    findFlights_return_mem store.flights v.origin_city
      (itin.cities.head?.getD "") (itin.cities.getLast?.getD "") v.start_date
      (v.start_date + (v.trip_length_days - 1)) rt
      (isFirstMin_mem_le flightPrice (minByKey?_isFirstMin flightPrice hrt)).1
  have hobp : 0 ≤ flightPrice ob := hfp ob hobm
  have hrtp : 0 ≤ flightPrice rt := hfp rt hrtm
  have haccnn : 0 ≤ (plan.map fun c => hotelPrice c.hotel * c.nights).sum := by
    apply List.sum_nonneg
    intro x hx
    obtain ⟨c, hc, rfl⟩ := List.mem_map.1 hx
    have h1 : 0 ≤ hotelPrice c.hotel :=
      hhp c.hotel (resolveStays_hotels_mem store.hotels itin.destination_country
        v.travel_style (splitNightsAcrossCities itin.cities v.trip_length_days)
        v.start_date itin.cities 0 plan hps c hc)
    have h2 : 0 < c.nights :=
      resolveStays_nights_pos store.hotels itin.destination_country
        v.travel_style (splitNightsAcrossCities itin.cities v.trip_length_days)
        v.start_date itin.cities 0 plan hps c hc
    positivity
  have hbase : 0 ≤ flightPrice ob + flightPrice rt
      + (plan.map fun c => hotelPrice c.hotel * c.nights).sum := by
    omega
  have htdiv : Int.tdiv (flightPrice ob + flightPrice rt
      + (plan.map fun c => hotelPrice c.hotel * c.nights).sum) 5
      = (flightPrice ob + flightPrice rt
        + (plan.map fun c => hotelPrice c.hotel * c.nights).sum) / 5 :=
    Int.tdiv_eq_ediv hbase (by omega)
  have hbdiv : Int.tdiv (6 * v.budget_idr) 5 = (6 * v.budget_idr) / 5 :=
    Int.tdiv_eq_ediv (by omega) (by omega)
  rw [hres]
  rw [hpf, hph, hcb, htp, hbw]
  refine ⟨by simp [flightPrice], rfl, rfl, by simpa using htdiv, rfl, rfl, ?_⟩
  rw [decide_eq_true_iff, hbdiv]

/-- Outbound flight for the budget-warning scenario: price 600000. -/
def flightG1 : FlightRec :=
  { id := some "g1", fromCity := "jakarta", toCity := "tokyo", date := some 1000,
    seats_left := 1, base_price_idr := some 600000 }

/-- Return flight for the budget-warning scenario: price 400000. -/
def flightG2 : FlightRec :=
  { id := some "g2", fromCity := "tokyo", toCity := "jakarta", date := some 1000,
    seats_left := 1, base_price_idr := some 400000 }

/-- One luxury hotel at 250000 per night. -/
def hotelK1 : HotelRec :=
  { id := some "k1", name := some "Sakura", city := "tokyo", country := "japan",
    category := "luxury", price_per_night_idr := some 250000, rooms_left := 1,
    available_from := some 900, available_to := some 1100 }

def c3Store : Store :=
  { bookings := [], flights := [flightG1, flightG2], hotels := [hotelK1] }

def c3Itin : Itinerary := { destination_country := "japan", cities := ["tokyo"] }

/-- One-day trip, budget 1000000: grand total 1500000 exceeds 1200000. -/
def c3PrefsA : UserPrefs :=
  { origin_city := some "jakarta", travel_style := some "luxury",
    budget_idr := some 1000000, trip_length_days := some 1, start_date := some 1000 }

/-- Same trip against budget 1300000: 1500000 does not exceed 1560000. -/
def c3PrefsB : UserPrefs :=
  { origin_city := some "jakarta", travel_style := some "luxury",
    budget_idr := some 1300000, trip_length_days := some 1, start_date := some 1000 }

def c3Chosen : List ChosenHotel :=
  [ { hotel := hotelK1, nights := 1, stay_start := 1000, stay_end := 1000 } ]

/-- Result of the budget-1000000 run (warning raised). -/
def c3ResultA : BookResult :=
  { status := "simulation_only", total_price_idr := 1500000, budget_warning := true,
    proposed_flights := [flightG1, flightG2], proposed_hotels := c3Chosen,
    stay_plan := c3Chosen.map mkStayEntry,
    cost_breakdown :=
      { outbound_flight := 600000, return_flight := 400000, total_flights := 1000000,
        accommodation := 250000, buffer_activities_transport := 250000,
        grand_total := 1500000 },
    booking_record := none }

/-- Result of the budget-1300000 run (no warning). -/
def c3ResultB : BookResult :=
  { status := "simulation_only", total_price_idr := 1500000, budget_warning := false,
    proposed_flights := [flightG1, flightG2], proposed_hotels := c3Chosen,
    stay_plan := c3Chosen.map mkStayEntry,
    cost_breakdown :=
      { outbound_flight := 600000, return_flight := 400000, total_flights := 1000000,
        accommodation := 250000, buffer_activities_transport := 250000,
        grand_total := 1500000 },
    booking_record := none }

/-- C3 witness: the concrete 1500000-total run warns against budget
1000000 and not against 1300000, and its breakdown satisfies the claimed
relations. -/
theorem c3_cost_breakdown_witness :
    bookItinerary c3Itin c3PrefsA none "t0" "tx" c3Store = (.ok c3ResultA, c3Store) ∧
    bookItinerary c3Itin c3PrefsB none "t0" "tx" c3Store = (.ok c3ResultB, c3Store) ∧
    c3ResultA.budget_warning = true ∧
    c3ResultB.budget_warning = false ∧
    (c3ResultA.proposed_flights.map flightPrice
      = [c3ResultA.cost_breakdown.outbound_flight,
         c3ResultA.cost_breakdown.return_flight] ∧
     c3ResultA.cost_breakdown.total_flights
      = c3ResultA.cost_breakdown.outbound_flight
        + c3ResultA.cost_breakdown.return_flight ∧
     c3ResultA.cost_breakdown.accommodation
      = (c3ResultA.proposed_hotels.map fun c => hotelPrice c.hotel * c.nights).sum ∧
     c3ResultA.cost_breakdown.buffer_activities_transport
      = (c3ResultA.cost_breakdown.total_flights
        + c3ResultA.cost_breakdown.accommodation) / 5 ∧
     c3ResultA.cost_breakdown.grand_total
      = c3ResultA.cost_breakdown.total_flights
        + c3ResultA.cost_breakdown.accommodation
        + c3ResultA.cost_breakdown.buffer_activities_transport ∧
     c3ResultA.total_price_idr = c3ResultA.cost_breakdown.grand_total ∧
     (c3ResultA.budget_warning = true ↔
        c3ResultA.cost_breakdown.grand_total > (6 * 1000000) / 5)) :=
  ⟨by decide, by decide, by decide, by decide,
   c3_cost_breakdown c3Itin c3PrefsA none "t0" "tx" c3Store c3ResultA c3Store
     ⟨"jakarta", "luxury", 1000000, 1, 1000⟩ (by decide) (by decide)
     (by decide) (by decide) (by decide)⟩

/-- C4: on every successful resolution the two selected flights are the
first price-minima of the outbound and return candidate lists: each is a
member, no candidate is cheaper, and every earlier candidate is strictly
more expensive (ties break to the first encountered). -/
theorem c4_cheapest_flight_selection (itin : Itinerary) (prefs : UserPrefs)
    (payment : Option PaymentInfo) (createdAt txid : String) (store : Store)
    (res : BookResult) (st' : Store) (v : PrefVals)
    (hv : validatePrefs prefs = some v)
    (h : bookItinerary itin prefs payment createdAt txid store = (.ok res, st')) :
    ∃ ob rt,
      res.proposed_flights = [ob, rt] ∧
      IsFirstMin flightPrice (findFlightsForTrip store.flights v.origin_city
        (itin.cities.head?.getD "") (itin.cities.getLast?.getD "")
        v.start_date (v.start_date + (v.trip_length_days - 1))).outbound_options ob ∧
      IsFirstMin flightPrice (findFlightsForTrip store.flights v.origin_city
        (itin.cities.head?.getD "") (itin.cities.getLast?.getD "")
        v.start_date (v.start_date + (v.trip_length_days - 1))).return_options rt := by
  obtain ⟨v', ob, rt, plan, hv', hne, hob, hrt, hps, hres, hst⟩ :=
    bookItinerary_ok itin prefs payment createdAt txid store res st' h
  rw [hv] at hv'
  have hvv : v = v' := by simpa using hv'
  subst hvv
  refine ⟨ob, rt, ?_, minByKey?_isFirstMin flightPrice hob,
    minByKey?_isFirstMin flightPrice hrt⟩
  rw [hres]
  exact (finishBooking_result itin v payment createdAt txid ob rt plan
    (v.start_date + (v.trip_length_days - 1)) store).2.1

/-- C4 witness: with seat-available flights priced 700000 and 500000 on
the desired route and date, the 500000 flight is selected. -/
theorem c4_cheapest_flight_selection_witness :
    bookItinerary sampleItin samplePrefs none "t0" "tx" sampleStore
      = (.ok sampleResult, sampleStore) ∧
    sampleResult.proposed_flights.head? = some flightF2 ∧
    flightPrice flightF2 = 500000 ∧
    flightPrice flightF1 = 700000 ∧
    (findFlightsForTrip sampleStore.flights "jakarta" "tokyo" "osaka"
        1000 1004).outbound_options = [flightF1, flightF2] ∧
    (∃ ob rt,
      sampleResult.proposed_flights = [ob, rt] ∧
      IsFirstMin flightPrice (findFlightsForTrip sampleStore.flights "jakarta"
        "tokyo" "osaka" 1000 1004).outbound_options ob ∧
      IsFirstMin flightPrice (findFlightsForTrip sampleStore.flights "jakarta"
        "tokyo" "osaka" 1000 1004).return_options rt) :=
  ⟨by decide, by decide, by decide, by decide, by decide,
   c4_cheapest_flight_selection sampleItin samplePrefs none "t0" "tx" sampleStore
     sampleResult sampleStore ⟨"jakarta", "luxury", 1000000, 5, 1000⟩
     (by decide) (by decide)⟩

/-! ### Error behaviour -/

theorem selectHotel_error (hotels : List HotelRec) (city country style : String)
    (stayStart stayEnd : Int) (e : BookerError)
    (h : selectHotelForCity hotels city country style stayStart stayEnd = .error e) :
    e = .noHotelsAvailable city style := by
  unfold selectHotelForCity at h
  cases hm : minByKey? hotelPrice
      (hotelCandidates hotels city country style stayStart stayEnd) with
  | none =>
    rw [hm] at h
    cases h
    rfl
  | some r =>
    rw [hm] at h
    cases h

theorem resolveStays_error_shape (hotels : List HotelRec) (country style : String)
    (nightsMap : List (String × Int)) (startDate : Int) :
    ∀ (cs : List String) (off : Int) (e : BookerError),
      resolveStays hotels country style nightsMap startDate cs off = .error e →
      ∃ c, e = .noHotelsAvailable c style := by
  intro cs
  induction cs with
  | nil =>
    intro off e h
    simp only [resolveStays] at h
    cases h
  | cons city rest ih =>
    intro off e h
    simp only [resolveStays] at h
    by_cases hn : (nightsMap.lookup city).getD 0 ≤ 0
    · rw [if_pos hn] at h
      exact ih off e h
    · rw [if_neg hn] at h
      cases hsel : selectHotelForCity hotels city country style
          (startDate + off) (startDate + off + (nightsMap.lookup city).getD 0 - 1) with
      | error e' =>
        rw [hsel] at h
        simp only [Except.error.injEq] at h
        subst h
        exact ⟨city, selectHotel_error hotels city country style _ _ e' hsel⟩
      | ok hrec =>
        rw [hsel] at h
        cases hrest : resolveStays hotels country style nightsMap startDate rest
            (off + (nightsMap.lookup city).getD 0) with
        | error e' =>
          rw [hrest] at h
          simp only [Except.error.injEq] at h
          subst h
          exact ih _ e' hrest
        | ok tail =>
          rw [hrest] at h
          cases h

/-- C9: whenever `bookItinerary` fails it fails with one of the four typed
errors (invalid preferences, empty itinerary, no flights, no hotels for a
named city and the requested style), and the bookings ledger and the
flight and hotel inventories are left completely unchanged.  Failure and
success are exclusive by the `Except` result type, so no partial booking
is ever returned alongside an error. -/
theorem c9_error_no_side_effects (itin : Itinerary) (prefs : UserPrefs)
    (payment : Option PaymentInfo) (createdAt txid : String) (store : Store)
    (e : BookerError) (st' : Store)
    (h : bookItinerary itin prefs payment createdAt txid store = (.error e, st')) :
    st' = store ∧
    (e = .invalidPreferences ∨ e = .emptyItinerary ∨ e = .noFlightsAvailable ∨
      ∃ c s, e = .noHotelsAvailable c s) := by
  unfold bookItinerary at h
  cases hv : validatePrefs prefs with
  | none =>
    rw [hv] at h
    simp only [Prod.mk.injEq, Except.error.injEq] at h
    exact ⟨h.2.symm, Or.inl h.1.symm⟩
  | some v =>
    rw [hv] at h
    simp only at h
    by_cases hc : itin.cities.isEmpty
    · rw [if_pos hc] at h
      simp only [Prod.mk.injEq, Except.error.injEq] at h
      exact ⟨h.2.symm, Or.inr (Or.inl h.1.symm)⟩
    · rw [if_neg hc] at h
      cases hob : minByKey? flightPrice (findFlightsForTrip store.flights v.origin_city
          (itin.cities.head?.getD "") (itin.cities.getLast?.getD "")
          v.start_date (v.start_date + (v.trip_length_days - 1))).outbound_options with
      | none =>
        rw [hob] at h
        simp only [Prod.mk.injEq, Except.error.injEq] at h
        exact ⟨h.2.symm, Or.inr (Or.inr (Or.inl h.1.symm))⟩
      | some ob =>
        rw [hob] at h
        cases hrt : minByKey? flightPrice (findFlightsForTrip store.flights v.origin_city
            (itin.cities.head?.getD "") (itin.cities.getLast?.getD "")
            v.start_date (v.start_date + (v.trip_length_days - 1))).return_options with
        | none =>
          rw [hrt] at h
          simp only [Prod.mk.injEq, Except.error.injEq] at h
          exact ⟨h.2.symm, Or.inr (Or.inr (Or.inl h.1.symm))⟩
        | some rt =>
          rw [hrt] at h
          cases hps : resolveStays store.hotels itin.destination_country v.travel_style
              (splitNightsAcrossCities itin.cities v.trip_length_days) v.start_date
              itin.cities 0 with
          | error e' =>
            rw [hps] at h
            simp only [Prod.mk.injEq, Except.error.injEq] at h
            obtain ⟨c, hcs⟩ := resolveStays_error_shape store.hotels
              itin.destination_country v.travel_style
              (splitNightsAcrossCities itin.cities v.trip_length_days) v.start_date
              itin.cities 0 e' hps
            refine ⟨h.2.symm, Or.inr (Or.inr (Or.inr ⟨c, v.travel_style, ?_⟩))⟩
            rw [← h.1, hcs]
          | ok plan =>
            rw [hps] at h
            simp at h

/-- An itinerary with no cities at all. -/
def c9Itin : Itinerary := { destination_country := "japan", cities := [] }

/-- C9 witness: an empty itinerary fails with the typed `emptyItinerary`
error and the store (ledger and inventories) is returned unchanged. -/
theorem c9_error_no_side_effects_witness :
    bookItinerary c9Itin samplePrefs none "t0" "tx" sampleStore
      = (.error .emptyItinerary, sampleStore) ∧
    (sampleStore = sampleStore ∧
      (BookerError.emptyItinerary = .invalidPreferences ∨
       BookerError.emptyItinerary = .emptyItinerary ∨
       BookerError.emptyItinerary = .noFlightsAvailable ∨
       ∃ c s, BookerError.emptyItinerary = .noHotelsAvailable c s)) :=
  ⟨by decide,
   c9_error_no_side_effects c9Itin samplePrefs none "t0" "tx" sampleStore
     .emptyItinerary sampleStore (by decide)⟩

/-! ### Hotel selection and the style downgrade -/

theorem minByKey?_of_ne_nil {α : Type} (key : α → Int) (l : List α) (h : l ≠ []) :
    ∃ r, minByKey? key l = some r ∧ IsFirstMin key l r := by
  cases l with
  | nil => exact absurd rfl h
  | cons x xs => exact ⟨_, rfl, minByKey_isFirstMin key xs x⟩

/-- C6: the downgrade chain is luxury → mid-range → backpacker → (none);
when the requested style has matches the cheapest (first-min by price per
night) is selected; when it has none but the downgraded style has matches
the cheapest of those is selected; when neither has matches (or no
downgrade exists) the loop fails with `noHotelsAvailable` naming the city
and the originally requested style. -/
theorem c6_hotel_fallback (hotels : List HotelRec) (city country style : String)
    (stayStart stayEnd : Int) :
    (fallbackStyle "luxury" = some "mid-range" ∧
     fallbackStyle "mid-range" = some "backpacker" ∧
     fallbackStyle "backpacker" = none) ∧
    (findHotelsForCity hotels city country style stayStart stayEnd ≠ [] →
      ∃ r, selectHotelForCity hotels city country style stayStart stayEnd = .ok r ∧
        IsFirstMin hotelPrice
          (findHotelsForCity hotels city country style stayStart stayEnd) r) ∧
    (∀ fs, findHotelsForCity hotels city country style stayStart stayEnd = [] →
      fallbackStyle style = some fs →
      findHotelsForCity hotels city country fs stayStart stayEnd ≠ [] →
      ∃ r, selectHotelForCity hotels city country style stayStart stayEnd = .ok r ∧
        IsFirstMin hotelPrice
          (findHotelsForCity hotels city country fs stayStart stayEnd) r) ∧
    (findHotelsForCity hotels city country style stayStart stayEnd = [] →
      fallbackStyle style = none →
      selectHotelForCity hotels city country style stayStart stayEnd
        = .error (.noHotelsAvailable city style)) ∧
    (∀ fs, findHotelsForCity hotels city country style stayStart stayEnd = [] →
      fallbackStyle style = some fs →
      findHotelsForCity hotels city country fs stayStart stayEnd = [] →
      selectHotelForCity hotels city country style stayStart stayEnd
        = .error (.noHotelsAvailable city style)) := by
  refine ⟨⟨by decide, by decide, by decide⟩, ?_, ?_, ?_, ?_⟩
  · intro hne
    have hcand : hotelCandidates hotels city country style stayStart stayEnd
        = findHotelsForCity hotels city country style stayStart stayEnd := by
      unfold hotelCandidates
      rw [if_neg (by simpa [List.isEmpty_iff] using hne)]
    obtain ⟨r, hr, hfm⟩ := minByKey?_of_ne_nil hotelPrice _ hne
    refine ⟨r, ?_, hfm⟩
    unfold selectHotelForCity
    rw [hcand, hr]
  · intro fs hprim hfs hne
    have hcand : hotelCandidates hotels city country style stayStart stayEnd
        = findHotelsForCity hotels city country fs stayStart stayEnd := by
      unfold hotelCandidates
      rw [if_pos (by simpa [List.isEmpty_iff] using hprim), hfs]
    obtain ⟨r, hr, hfm⟩ := minByKey?_of_ne_nil hotelPrice _ hne
    refine ⟨r, ?_, hfm⟩
    unfold selectHotelForCity
    rw [hcand, hr]
  · intro hprim hfs
    have hcand : hotelCandidates hotels city country style stayStart stayEnd = [] := by
      unfold hotelCandidates
      rw [if_pos (by simpa [List.isEmpty_iff] using hprim), hfs]
    unfold selectHotelForCity
    rw [hcand]
    rfl
  · intro fs hprim hfs hfb
    have hcand : hotelCandidates hotels city country style stayStart stayEnd = [] := by
      unfold hotelCandidates
      rw [if_pos (by simpa [List.isEmpty_iff] using hprim), hfs]
      exact hfb
    unfold selectHotelForCity
    rw [hcand]
    rfl

/-- C6 witness: a luxury request in osaka finds no luxury hotel, falls
back to mid-range and selects the (cheapest) mid-range hotel. -/
theorem c6_hotel_fallback_witness :
    findHotelsForCity sampleStore.hotels "osaka" "japan" "luxury" 1003 1004 = [] ∧
    findHotelsForCity sampleStore.hotels "osaka" "japan" "mid-range" 1003 1004
      = [hotelH2] ∧
    selectHotelForCity sampleStore.hotels "osaka" "japan" "luxury" 1003 1004
      = .ok hotelH2 ∧
    (∃ r, selectHotelForCity sampleStore.hotels "osaka" "japan" "luxury" 1003 1004
        = .ok r ∧
      IsFirstMin hotelPrice
        (findHotelsForCity sampleStore.hotels "osaka" "japan" "mid-range" 1003 1004) r) :=
  ⟨by decide, by decide, by decide,
   (c6_hotel_fallback sampleStore.hotels "osaka" "japan" "luxury" 1003 1004).2.2.1
     "mid-range" (by decide) (by decide) (by decide)⟩

/-! ### Ledger commit and inventory decrement -/

theorem decrementFlightsInv_eq_map (ids : List String) (l : List FlightRec) :
    decrementFlightsInv ids l = l.map (decFlightOne ids) := by
  unfold decrementFlightsInv
  by_cases h : ids.isEmpty
  · rw [if_pos h]
    rw [List.isEmpty_iff] at h
    subst h
    induction l with
    | nil => rfl
    | cons x xs ih =>
      rw [List.map_cons, ← ih]
      show x :: xs = decFlightOne [] x :: xs
      unfold decFlightOne
      rw [if_neg (by simp)]
  · rw [if_neg h]

theorem decrementHotelsInv_eq_map (ids : List String) (l : List HotelRec) :
    decrementHotelsInv ids l = l.map (decHotelOne ids) := by
  unfold decrementHotelsInv
  by_cases h : ids.isEmpty
  · rw [if_pos h]
    rw [List.isEmpty_iff] at h
    subst h
    induction l with
    | nil => rfl
    | cons x xs ih =>
      rw [List.map_cons, ← ih]
      show x :: xs = decHotelOne [] x :: xs
      unfold decHotelOne
      rw [if_neg (by simp)]
  · rw [if_neg h]

theorem decFlightOne_mem (ids : List String) (f : FlightRec)
    (hf : f.id.getD "" ∈ ids) :
    (decFlightOne ids f).seats_left = max 0 (f.seats_left - 1) ∧
    0 ≤ (decFlightOne ids f).seats_left ∧
    (decFlightOne ids (decFlightOne ids f)).seats_left = max 0 (f.seats_left - 2) := by
  have hc : ids.contains (f.id.getD "") = true := List.elem_eq_true_of_mem hf
  unfold decFlightOne
  rw [if_pos hc]
  have hc2 : ids.contains (({ f with seats_left := max 0 (f.seats_left - 1)}
      : FlightRec).id.getD "") = true := hc
  rw [if_pos hc2]
  refine ⟨rfl, by simp, ?_⟩
  show max 0 (max 0 (f.seats_left - 1) - 1) = max 0 (f.seats_left - 2)
  omega

theorem decFlightOne_not_mem (ids : List String) (f : FlightRec)
    (hf : f.id.getD "" ∉ ids) : decFlightOne ids f = f := by
  unfold decFlightOne
  rw [if_neg (by simpa using hf)]

theorem decHotelOne_mem (ids : List String) (x : HotelRec)
    (hx : x.id.getD "" ∈ ids) :
    (decHotelOne ids x).rooms_left = max 0 (x.rooms_left - 1) ∧
    0 ≤ (decHotelOne ids x).rooms_left ∧
    (decHotelOne ids (decHotelOne ids x)).rooms_left = max 0 (x.rooms_left - 2) := by
  have hc : ids.contains (x.id.getD "") = true := List.elem_eq_true_of_mem hx
  unfold decHotelOne
  rw [if_pos hc]
  have hc2 : ids.contains (({ x with rooms_left := max 0 (x.rooms_left - 1)}
      : HotelRec).id.getD "") = true := hc
  rw [if_pos hc2]
  refine ⟨rfl, by simp, ?_⟩
  show max 0 (max 0 (x.rooms_left - 1) - 1) = max 0 (x.rooms_left - 2)
  omega

theorem decHotelOne_not_mem (ids : List String) (x : HotelRec)
    (hx : x.id.getD "" ∉ ids) : decHotelOne ids x = x := by
  unfold decHotelOne
  rw [if_neg (by simpa using hx)]

/-- C7: a commit maps each flight record to itself with one seat removed
(floored at 0) when its id is among the booked flight ids and leaves it
untouched otherwise — ids absent from the inventory simply decrement
nothing and raise no error (`createBooking` is total); hotels behave the
same on rooms; committing the same booking twice against the resulting
snapshot removes one seat/room each time, never going below 0. -/
theorem c7_inventory_decrement (store : Store) (country : String)
    (cities : List String) (sd ed : Int) (fl : List FlightRec)
    (ho : List ChosenHotel) (tp : Int) (pi2 : PaymentInfo) (pr : PaymentResult)
    (ca : String) :
    (createBooking store country cities sd ed fl ho tp pi2 pr ca).2.flights
      = store.flights.map (decFlightOne (truthyIds (fl.map (·.id)))) ∧
    (createBooking store country cities sd ed fl ho tp pi2 pr ca).2.hotels
      = store.hotels.map (decHotelOne (truthyIds (ho.map (·.hotel.id)))) ∧
    (createBooking (createBooking store country cities sd ed fl ho tp pi2 pr ca).2
        country cities sd ed fl ho tp pi2 pr ca).2.flights
      = store.flights.map (fun f =>
          decFlightOne (truthyIds (fl.map (·.id)))
            (decFlightOne (truthyIds (fl.map (·.id))) f)) ∧
    (createBooking (createBooking store country cities sd ed fl ho tp pi2 pr ca).2
        country cities sd ed fl ho tp pi2 pr ca).2.hotels
      = store.hotels.map (fun x =>
          decHotelOne (truthyIds (ho.map (·.hotel.id)))
            (decHotelOne (truthyIds (ho.map (·.hotel.id))) x)) ∧
    (∀ ids (f : FlightRec), f.id.getD "" ∈ ids →
      (decFlightOne ids f).seats_left = max 0 (f.seats_left - 1) ∧
      0 ≤ (decFlightOne ids f).seats_left ∧
      (decFlightOne ids (decFlightOne ids f)).seats_left
        = max 0 (f.seats_left - 2)) ∧
    (∀ ids (f : FlightRec), f.id.getD "" ∉ ids → decFlightOne ids f = f) ∧
    (∀ ids (x : HotelRec), x.id.getD "" ∈ ids →
      (decHotelOne ids x).rooms_left = max 0 (x.rooms_left - 1) ∧
      0 ≤ (decHotelOne ids x).rooms_left ∧
      (decHotelOne ids (decHotelOne ids x)).rooms_left
        = max 0 (x.rooms_left - 2)) ∧
    (∀ ids (x : HotelRec), x.id.getD "" ∉ ids → decHotelOne ids x = x) := by
  refine ⟨?_, ?_, ?_, ?_, decFlightOne_mem, decFlightOne_not_mem,
    decHotelOne_mem, decHotelOne_not_mem⟩
  · exact decrementFlightsInv_eq_map _ _
  · exact decrementHotelsInv_eq_map _ _
  · show decrementFlightsInv (truthyIds (fl.map (·.id)))
        (decrementFlightsInv (truthyIds (fl.map (·.id))) store.flights)
      = _
    rw [decrementFlightsInv_eq_map, decrementFlightsInv_eq_map, List.map_map]
    rfl
  · show decrementHotelsInv (truthyIds (ho.map (·.hotel.id)))
        (decrementHotelsInv (truthyIds (ho.map (·.hotel.id))) store.hotels)
      = _
    rw [decrementHotelsInv_eq_map, decrementHotelsInv_eq_map, List.map_map]
    rfl

def c7Payment : PaymentInfo := { auto_book_allowed := some true, card_last4 := some "1111" }

def c7PayRes : PaymentResult :=
  { status := "success", transaction_id := "tx", charged_amount_idr := 100,
    card_last4 := some "1111" }

/-- A booked flight list containing one id present in the store ("f1")
and one id absent from it ("zz"). -/
def c7Flights : List FlightRec :=
  [ flightF1,
    { id := some "zz", fromCity := "jakarta", toCity := "tokyo", date := some 1000,
      seats_left := 1, base_price_idr := some 1 } ]

def c7Chosen : List ChosenHotel :=
  [ { hotel := hotelH2, nights := 2, stay_start := 1003, stay_end := 1004 } ]

/-- C7 witness: committing against the sample store takes f1 from 2 seats
to 1 and h2 from 1 room to 0; a second commit floors them at 0; the
unknown id "zz" and the untouched records change nothing. -/
theorem c7_inventory_decrement_witness :
    ((createBooking sampleStore "japan" ["tokyo", "osaka"] 1000 1004 c7Flights
        c7Chosen 100 c7Payment c7PayRes "now").2.flights
      = [{ flightF1 with seats_left := 1 }, flightF2, flightF3]) ∧
    ((createBooking sampleStore "japan" ["tokyo", "osaka"] 1000 1004 c7Flights
        c7Chosen 100 c7Payment c7PayRes "now").2.hotels
      = [hotelH1, { hotelH2 with rooms_left := 0 }]) ∧
    ((createBooking (createBooking sampleStore "japan" ["tokyo", "osaka"] 1000 1004
        c7Flights c7Chosen 100 c7Payment c7PayRes "now").2 "japan"
        ["tokyo", "osaka"] 1000 1004 c7Flights c7Chosen 100 c7Payment c7PayRes
        "now").2.flights
      = [{ flightF1 with seats_left := 0 }, flightF2, flightF3]) ∧
    ((createBooking (createBooking sampleStore "japan" ["tokyo", "osaka"] 1000 1004
        c7Flights c7Chosen 100 c7Payment c7PayRes "now").2 "japan"
        ["tokyo", "osaka"] 1000 1004 c7Flights c7Chosen 100 c7Payment c7PayRes
        "now").2.hotels
      = [hotelH1, { hotelH2 with rooms_left := 0 }]) ∧
    ((decFlightOne ["f1", "zz"] flightF1).seats_left
        = max 0 (flightF1.seats_left - 1) ∧
      0 ≤ (decFlightOne ["f1", "zz"] flightF1).seats_left ∧
      (decFlightOne ["f1", "zz"] (decFlightOne ["f1", "zz"] flightF1)).seats_left
        = max 0 (flightF1.seats_left - 2)) ∧
    decFlightOne ["f1", "zz"] flightF2 = flightF2 :=
  ⟨by decide, by decide, by decide, by decide,
   (c7_inventory_decrement sampleStore "japan" ["tokyo", "osaka"] 1000 1004
     c7Flights c7Chosen 100 c7Payment c7PayRes "now").2.2.2.2.1
     ["f1", "zz"] flightF1 (by decide),
   (c7_inventory_decrement sampleStore "japan" ["tokyo", "osaka"] 1000 1004
     c7Flights c7Chosen 100 c7Payment c7PayRes "now").2.2.2.2.2.1
     ["f1", "zz"] flightF2 (by decide)⟩

/-- C8: the persisted record echoes exactly the cities, start date, end
date and total price passed into `create_booking`, its id is "BK-"
followed by the 4-digit zero-padded successor of the number of previously
persisted records, and the new ledger is the old one with exactly this
record appended. -/
theorem c8_booking_record_roundtrip (store : Store) (country : String)
    (cities : List String) (sd ed : Int) (fl : List FlightRec)
    (ho : List ChosenHotel) (tp : Int) (pi2 : PaymentInfo) (pr : PaymentResult)
    (ca : String) :
    (createBooking store country cities sd ed fl ho tp pi2 pr ca).1.cities = cities ∧
    (createBooking store country cities sd ed fl ho tp pi2 pr ca).1.start_date = sd ∧
    (createBooking store country cities sd ed fl ho tp pi2 pr ca).1.end_date = ed ∧
    (createBooking store country cities sd ed fl ho tp pi2 pr ca).1.total_price_idr
      = tp ∧
    (createBooking store country cities sd ed fl ho tp pi2 pr ca).1.booking_id
      = "BK-" ++ pad4 (store.bookings.length + 1) ∧
    (createBooking store country cities sd ed fl ho tp pi2 pr ca).2.bookings
      = store.bookings
        ++ [(createBooking store country cities sd ed fl ho tp pi2 pr ca).1] :=
  ⟨rfl, rfl, rfl, rfl, rfl, rfl⟩

/-! ### Missing price fields -/

/-- C10: a flight with no `base_price_idr` (resp. a hotel with no
`price_per_night_idr`) is treated as price 0: among candidates whose other
prices are non-negative it is weakly cheapest and is selected whenever all
candidates before it in catalog order have strictly positive price, and it
contributes 0 wherever its price enters the cost computation. -/
theorem c10_missing_price_is_zero (l1 l2 : List FlightRec) (f : FlightRec)
    (m1 m2 : List HotelRec) (x : HotelRec)
    (hfnone : f.base_price_idr = none)
    (hl1 : ∀ g ∈ l1, 0 < flightPrice g) (hl2 : ∀ g ∈ l2, 0 ≤ flightPrice g)
    (hxnone : x.price_per_night_idr = none)
    (hm1 : ∀ y ∈ m1, 0 < hotelPrice y) (hm2 : ∀ y ∈ m2, 0 ≤ hotelPrice y) :
    flightPrice f = 0 ∧
    minByKey? flightPrice (l1 ++ f :: l2) = some f ∧
    hotelPrice x = 0 ∧
    minByKey? hotelPrice (m1 ++ x :: m2) = some x := by
  have hf0 : flightPrice f = 0 := by
    unfold flightPrice
    rw [hfnone]
    rfl
  have hx0 : hotelPrice x = 0 := by
    unfold hotelPrice
    rw [hxnone]
    rfl
  refine ⟨hf0, ?_, hx0, ?_⟩
  · obtain ⟨r, hr, hrfm⟩ := minByKey?_of_ne_nil flightPrice (l1 ++ f :: l2)
      (by simp)
    have hffm : IsFirstMin flightPrice (l1 ++ f :: l2) f := by
      refine ⟨l1, l2, rfl, ?_, ?_⟩
      · intro y hy
        rw [hf0]
        exact hl1 y hy
      · intro y hy
        rw [hf0]
        exact hl2 y hy
    rw [hr, isFirstMin_unique flightPrice _ r f hrfm hffm]
  · obtain ⟨r, hr, hrfm⟩ := minByKey?_of_ne_nil hotelPrice (m1 ++ x :: m2)
      (by simp)
    have hxfm : IsFirstMin hotelPrice (m1 ++ x :: m2) x := by
      refine ⟨m1, m2, rfl, ?_, ?_⟩
      · intro y hy
        rw [hx0]
        exact hm1 y hy
      · intro y hy
        rw [hx0]
        exact hm2 y hy
    rw [hr, isFirstMin_unique hotelPrice _ r x hrfm hxfm]

/-- Outbound flight with a price of 700000. -/
def flightFX : FlightRec :=
  { id := some "fx", fromCity := "jakarta", toCity := "tokyo", date := some 1000,
    seats_left := 1, base_price_idr := some 700000 }

/-- Outbound flight whose price field is missing entirely. -/
def flightFY : FlightRec :=
  { id := some "fy", fromCity := "jakarta", toCity := "tokyo", date := some 1000,
    seats_left := 1, base_price_idr := none }

/-- Return flight with a price of 400000. -/
def flightFZ : FlightRec :=
  { id := some "fz", fromCity := "tokyo", toCity := "jakarta", date := some 1000,
    seats_left := 1, base_price_idr := some 400000 }

def c10Store : Store :=
  { bookings := [], flights := [flightFX, flightFY, flightFZ], hotels := [hotelK1] }

/-- Result of the run selecting the priceless flight: it contributes 0 to
the flight total. -/
def c10Result : BookResult :=
  { status := "simulation_only", total_price_idr := 780000, budget_warning := false,
    proposed_flights := [flightFY, flightFZ], proposed_hotels := c3Chosen,
    stay_plan := c3Chosen.map mkStayEntry,
    cost_breakdown :=
      { outbound_flight := 0, return_flight := 400000, total_flights := 400000,
        accommodation := 250000, buffer_activities_transport := 130000,
        grand_total := 780000 },
    booking_record := none }

/-- C10 witness: the flight without a price beats a 700000 candidate, a
full run selects it and books its leg at cost 0. -/
theorem c10_missing_price_is_zero_witness :
    (flightPrice flightFY = 0 ∧
     minByKey? flightPrice ([flightFX] ++ flightFY :: []) = some flightFY ∧
     hotelPrice { hotelK1 with price_per_night_idr := none } = 0 ∧
     minByKey? hotelPrice ([] ++ { hotelK1 with price_per_night_idr := none } :: [])
       = some { hotelK1 with price_per_night_idr := none }) ∧
    bookItinerary c3Itin c3PrefsA none "t0" "tx" c10Store = (.ok c10Result, c10Store) ∧
    c10Result.cost_breakdown.outbound_flight = 0 ∧
    c10Result.proposed_flights.head? = some flightFY :=
  ⟨c10_missing_price_is_zero [flightFX] [] flightFY []
     [] { hotelK1 with price_per_night_idr := none } (by decide)
     (by decide) (by decide) (by decide) (by decide) (by decide),
   by decide, by decide, by decide⟩

/-! ### Nearest-date fallback -/

/-- Candidate three days from the desired date, priced 100000. -/
def flightFA : FlightRec :=
  { id := some "fa", fromCity := "jakarta", toCity := "tokyo", date := some 1003,
    seats_left := 1, base_price_idr := some 100000 }

/-- Candidate one day from the desired date, priced 200000. -/
def flightFB : FlightRec :=
  { id := some "fb", fromCity := "jakarta", toCity := "tokyo", date := some 1001,
    seats_left := 1, base_price_idr := some 200000 }

/-- Exact-date return flight. -/
def flightFR : FlightRec :=
  { id := some "fr", fromCity := "tokyo", toCity := "jakarta", date := some 1000,
    seats_left := 1, base_price_idr := some 300000 }

def c5Store : Store :=
  { bookings := [], flights := [flightFA, flightFB, flightFR], hotels := [hotelK1] }

/-- Result of the counterexample run: the 3-day (cheaper) candidate is
booked, not the 1-day one. -/
def c5Result : BookResult :=
  { status := "simulation_only", total_price_idr := 780000, budget_warning := false,
    proposed_flights := [flightFA, flightFR], proposed_hotels := c3Chosen,
    stay_plan := c3Chosen.map mkStayEntry,
    cost_breakdown :=
      { outbound_flight := 100000, return_flight := 300000, total_flights := 400000,
        accommodation := 250000, buffer_activities_transport := 130000,
        grand_total := 400000 + 130000 + 250000 },
    booking_record := none }

/-- C5 counterexample: with no exact-date match and exactly two
candidates, at 1 day (price 200000) and 3 days (price 100000) from the
desired date, the fallback candidate set is [1-day, 3-day] — but the
resolver selects the 3-day candidate, because selection among fallback
candidates is by base price, refuting the claim that the 1-day candidate
is selected in this configuration. -/
theorem c5_counterexample :
    exactOptions c5Store.flights "jakarta" "tokyo" 1000 = [] ∧
    dateableCandidates c5Store.flights "jakarta" "tokyo" = [flightFA, flightFB] ∧
    flightDateDist 1000 flightFB = 1 ∧
    flightDateDist 1000 flightFA = 3 ∧
    nearestOptions c5Store.flights "jakarta" "tokyo" 1000 = [flightFB, flightFA] ∧
    (findFlightsForTrip c5Store.flights "jakarta" "tokyo" "tokyo"
        1000 1000).outbound_options = [flightFB, flightFA] ∧
    bookItinerary c3Itin c3PrefsA none "t0" "tx" c5Store = (.ok c5Result, c5Store) ∧
    c5Result.proposed_flights.head? = some flightFA ∧
    flightFA ≠ flightFB := by
  refine ⟨by decide, by decide, by decide, by decide, by decide, by decide,
    by decide, by decide, by decide⟩

/-- C5 (amended): when no seat-available flight matches the exact date,
the candidate set is the (at most) five seat-available flights on the
route with parseable dates that are closest by absolute day difference,
ties broken by catalog order; and among a two-candidate fallback set the
1-day candidate (listed first) is selected precisely when its base price
is not larger than the 3-day candidate's, since selection among fallback
candidates is by base price with ties to the first listed. -/
theorem c5_nearest_date_fallback (flights : List FlightRec) (src dst : String)
    (target : Int) :
    (nearestOptions flights src dst target).length ≤ 5 ∧
    (∀ f ∈ nearestOptions flights src dst target,
      f ∈ dateableCandidates flights src dst) ∧
    ((((dateableCandidates flights src dst).enum.insertionSort
        (nearerLe target)).map Prod.snd).Perm (dateableCandidates flights src dst)) ∧
    (nearestOptions flights src dst target).Pairwise
      (fun f g => flightDateDist target f ≤ flightDateDist target g) ∧
    ((dateableCandidates flights src dst).enum.insertionSort
        (nearerLe target)).Pairwise
      (fun p q => flightDateDist target p.2 = flightDateDist target q.2 →
        p.1 < q.1) ∧
    (∀ f ∈ nearestOptions flights src dst target,
      ∀ g ∈ (((dateableCandidates flights src dst).enum.insertionSort
          (nearerLe target)).map Prod.snd).drop 5,
        flightDateDist target f ≤ flightDateDist target g) ∧
    (∀ lastCity retDate, exactOptions flights src dst target = [] →
      (findFlightsForTrip flights src dst lastCity target retDate).outbound_options
        = nearestOptions flights src dst target) ∧
    (∀ f g, nearestOptions flights src dst target = [f, g] →
      flightPrice f ≤ flightPrice g →
      minByKey? flightPrice (nearestOptions flights src dst target) = some f) := by
  have hsorted : List.Sorted (nearerLe target)
      ((dateableCandidates flights src dst).enum.insertionSort (nearerLe target)) :=
    List.sorted_insertionSort (nearerLe target) _
  have hperm : ((dateableCandidates flights src dst).enum.insertionSort
      (nearerLe target)).Perm (dateableCandidates flights src dst).enum :=
    List.perm_insertionSort (nearerLe target) _
  have hp1 : ((((dateableCandidates flights src dst).enum.insertionSort
      (nearerLe target)).map Prod.snd)).Pairwise
      (fun f g => flightDateDist target f ≤ flightDateDist target g) := by
    refine List.Pairwise.map Prod.snd ?_ hsorted
    intro a b hab
    rcases hab with h | ⟨h, -⟩
    · exact le_of_lt h
    · exact le_of_eq h
  refine ⟨List.length_take_le 5 _, nearestOptions_subset flights src dst target,
    ?_, ?_, ?_, ?_, ?_, ?_⟩
  · have h1 := hperm.map Prod.snd
    rwa [List.enum_map_snd] at h1
  · exact List.Pairwise.sublist (List.take_sublist 5 _) hp1
  · have hnd : (((dateableCandidates flights src dst).enum.insertionSort
        (nearerLe target)).map Prod.fst).Nodup := by
      refine ((hperm.map Prod.fst).nodup_iff).2 ?_
      rw [List.enum_map_fst]
      exact List.nodup_range _
    rw [List.Nodup, List.pairwise_map] at hnd
    refine (hsorted.and hnd).imp ?_
    intro p q hpq hdeq
    rcases hpq.1 with h | ⟨-, hile⟩
    · exact absurd hdeq (ne_of_lt h)
    · exact lt_of_le_of_ne hile hpq.2
  · intro f hf g hg
    have hsplit := List.pairwise_append.1 (by
      rw [List.take_append_drop]
      exact hp1 : (List.take 5 (((dateableCandidates flights src
        dst).enum.insertionSort (nearerLe target)).map Prod.snd)
        ++ List.drop 5 (((dateableCandidates flights src dst).enum.insertionSort
          (nearerLe target)).map Prod.snd)).Pairwise
        (fun f g => flightDateDist target f ≤ flightDateDist target g))
    exact hsplit.2.2 f hf g hg
  · intro lastCity retDate hex
    simp [findFlightsForTrip, hex]
  · intro f g heq hle
    rw [heq]
    show some (minByKey flightPrice f [g]) = some f
    unfold minByKey
    simp only [List.foldl_cons, List.foldl_nil]
    rw [if_neg (not_lt.2 hle)]

/-- Equal-price candidate three days from the desired date. -/
def flightFA2 : FlightRec :=
  { id := some "fa2", fromCity := "jakarta", toCity := "tokyo", date := some 1003,
    seats_left := 1, base_price_idr := some 200000 }

/-- Equal-price candidate one day from the desired date. -/
def flightFB2 : FlightRec :=
  { id := some "fb2", fromCity := "jakarta", toCity := "tokyo", date := some 1001,
    seats_left := 1, base_price_idr := some 200000 }

def c5wStore : Store :=
  { bookings := [], flights := [flightFA2, flightFB2, flightFR], hotels := [hotelK1] }

/-- Result of the equal-price fallback run: the 1-day candidate wins. -/
def c5wResult : BookResult :=
  { status := "simulation_only", total_price_idr := 900000, budget_warning := false,
    proposed_flights := [flightFB2, flightFR], proposed_hotels := c3Chosen,
    stay_plan := c3Chosen.map mkStayEntry,
    cost_breakdown :=
      { outbound_flight := 200000, return_flight := 300000, total_flights := 500000,
        accommodation := 250000, buffer_activities_transport := 150000,
        grand_total := 900000 },
    booking_record := none }

/-- C5 (amended) witness: two equal-priced candidates at 1 and 3 days:
the fallback set is [1-day, 3-day] and the resolver selects the 1-day
candidate (its price is not larger than the other's). -/
theorem c5_nearest_date_fallback_witness :
    nearestOptions c5wStore.flights "jakarta" "tokyo" 1000
      = [flightFB2, flightFA2] ∧
    (findFlightsForTrip c5wStore.flights "jakarta" "tokyo" "tokyo"
        1000 1000).outbound_options
      = nearestOptions c5wStore.flights "jakarta" "tokyo" 1000 ∧
    minByKey? flightPrice (nearestOptions c5wStore.flights "jakarta" "tokyo" 1000)
      = some flightFB2 ∧
    bookItinerary c3Itin c3PrefsA none "t0" "tx" c5wStore
      = (.ok c5wResult, c5wStore) ∧
    c5wResult.proposed_flights.head? = some flightFB2 :=
  ⟨by decide,
   (c5_nearest_date_fallback c5wStore.flights "jakarta" "tokyo" 1000).2.2.2.2.2.2.1
     "tokyo" 1000 (by decide),
   (c5_nearest_date_fallback c5wStore.flights "jakarta" "tokyo" 1000).2.2.2.2.2.2.2
     flightFB2 flightFA2 (by decide) (by decide),
   by decide, by decide⟩
